import Mathlib

/-! # InheritX core contracts: shallow embedding and verification

This file embeds the three Soroban contracts of the InheritX repository
(inheritance vault, lending pool, borrowing vault) as executable Lean
definitions and proves properties of the embedded operations.

Machine integers are modelled as `Nat`/`Int` with explicit bounds checks
where the Rust source performs checked, saturating or casting operations;
a Rust panic (trap) is modelled by a dedicated `Trap` error value, since
a transaction that traps does not commit.  Storage is modelled
transactionally: an operation returns either an error (in which case no
state change is observable, matching the host's rollback-on-error
semantics) or the fully updated state.
-/

namespace Sha256

/-- Reduce a natural number to a 32-bit word. -/
def u32 (n : Nat) : Nat := n % 4294967296

/-- Right rotation of a 32-bit word by `k` bits. -/
def rotr (k x : Nat) : Nat := u32 ((x >>> k) ||| (x <<< (32 - k)))

/-- SHA-256 choose function. -/
def ch (x y z : Nat) : Nat := (x &&& y) ^^^ ((x ^^^ 4294967295) &&& z)

/-- SHA-256 majority function. -/
def maj (x y z : Nat) : Nat := (x &&& y) ^^^ (x &&& z) ^^^ (y &&& z)

def bsig0 (x : Nat) : Nat := rotr 2 x ^^^ rotr 13 x ^^^ rotr 22 x

def bsig1 (x : Nat) : Nat := rotr 6 x ^^^ rotr 11 x ^^^ rotr 25 x

def ssig0 (x : Nat) : Nat := rotr 7 x ^^^ rotr 18 x ^^^ (x >>> 3)

def ssig1 (x : Nat) : Nat := rotr 17 x ^^^ rotr 19 x ^^^ (x >>> 10)

/-- SHA-256 round constants. -/
def K : List Nat := [
  1116352408, 1899447441, 3049323471, 3921009573, 961987163, 1508970993, 2453635748, 2870763221,
  3624381080, 310598401, 607225278, 1426881987, 1925078388, 2162078206, 2614888103, 3248222580,
  3835390401, 4022224774, 264347078, 604807628, 770255983, 1249150122, 1555081692, 1996064986,
  2554220882, 2821834349, 2952996808, 3210313671, 3336571891, 3584528711, 113926993, 338241895,
  666307205, 773529912, 1294757372, 1396182291, 1695183700, 1986661051, 2177026350, 2456956037,
  2730485921, 2820302411, 3259730800, 3345764771, 3516065817, 3600352804, 4094571909, 275423344,
  430227734, 506948616, 659060556, 883997877, 958139571, 1322822218, 1537002063, 1747873779,
  1955562222, 2024104815, 2227730452, 2361852424, 2428436474, 2756734187, 3204031479, 3329325298]

/-- SHA-256 initial hash value. -/
def H0 : List Nat :=
  [1779033703, 3144134277, 1013904242, 2773480762, 1359893119, 2600822924, 528734635, 1541459225]

/-- Big-endian byte encoding of `n` on `k` bytes. -/
def beBytes : Nat → Nat → List Nat
  | 0, _ => []
  | k + 1, n => beBytes k (n / 256) ++ [n % 256]

/-- Assemble a 32-bit word from four big-endian bytes. -/
def wordOf (a b c d : Nat) : Nat := ((a * 256 + b) * 256 + c) * 256 + d

/-- Group a byte list into 32-bit words (big-endian). -/
def wordsOf : List Nat → List Nat
  | a :: b :: c :: d :: rest => wordOf a b c d :: wordsOf rest
  | _ => []

/-- SHA-256 padding: append `0x80`, zeros and the 64-bit bit length. -/
def padMessage (msg : List Nat) : List Nat :=
  let L := msg.length
  let z := (119 - L % 64) % 64
  msg ++ (128 :: List.replicate z 0) ++ beBytes 8 (L * 8)

/-- Extend 16 message words to the 64-word schedule. -/
def schedule (block : List Nat) : List Nat :=
  (List.range 48).foldl (fun w _ =>
    let n := w.length
    w ++ [u32 (ssig1 (w.getD (n - 2) 0) + w.getD (n - 7) 0 +
               ssig0 (w.getD (n - 15) 0) + w.getD (n - 16) 0)]) block

/-- One SHA-256 compression round on the 8-word working state. -/
def round1 (st : List Nat) (kw : Nat × Nat) : List Nat :=
  match st with
  | [a, b, c, d, e, f, g, h] =>
    let t1 := u32 (h + bsig1 e + ch e f g + kw.1 + kw.2)
    let t2 := u32 (bsig0 a + maj a b c)
    [u32 (t1 + t2), a, b, c, u32 (d + t1), e, f, g]
  | other => other

/-- Compress one 16-word block into the running hash state. -/
def compress (h : List Nat) (block : List Nat) : List Nat :=
  let st := (K.zip (schedule block)).foldl round1 h
  h.zipWith (fun x y => u32 (x + y)) st

/-- Fold `n` blocks of 16 words into the hash state. -/
def blocksGo : Nat → List Nat → List Nat → List Nat
  | 0, h, _ => h
  | n + 1, h, ws => blocksGo n (compress h (ws.take 16)) (ws.drop 16)

/-- SHA-256 digest of a byte list, as a list of 32 bytes. -/
def sha256 (msg : List Nat) : List Nat :=
  let ws := wordsOf (padMessage msg)
  (blocksGo (ws.length / 16) H0 ws).foldr (fun w acc => beBytes 4 w ++ acc) []

end Sha256

abbrev Addr := Nat

namespace Inh

open Sha256

/-- Address of the inheritance contract itself in the token-ledger model. -/
def contractAddr : Addr := 100

inductive DistributionMethod
  | LumpSum | Monthly | Quarterly | Yearly
  deriving DecidableEq, Repr

structure Beneficiary where
  hashed_full_name : List Nat
  hashed_email : List Nat
  hashed_claim_code : List Nat
  bank_account : List Nat
  allocation_bp : Nat
  deriving DecidableEq, Repr

structure InheritancePlan where
  plan_name : List Nat
  description : List Nat
  asset_type : String
  total_amount : Nat
  distribution_method : DistributionMethod
  beneficiaries : List Beneficiary
  total_allocation_bp : Nat
  owner : Addr
  created_at : Nat
  is_active : Bool
  is_lendable : Bool
  total_loaned : Nat
  deriving DecidableEq, Repr

/-- Error taxonomy of the inheritance contract.  `Trap` is not a source
error code: it models a Rust panic (overflow of an unchecked operation or
`unwrap` of a missing value), which aborts the transaction. -/
inductive InheritanceError
  | InvalidAssetType | InvalidTotalAmount | MissingRequiredField | TooManyBeneficiaries
  | InvalidClaimCode | AllocationPercentageMismatch | DescriptionTooLong
  | InvalidBeneficiaryData | Unauthorized | PlanNotFound | InvalidBeneficiaryIndex
  | AllocationExceedsLimit | InvalidAllocation | InvalidClaimCodeRange | ClaimNotAllowedYet
  | AlreadyClaimed | BeneficiaryNotFound | PlanAlreadyDeactivated | PlanNotActive
  | AdminNotSet | AdminAlreadyInitialized | NotAdmin | KycNotSubmitted | KycAlreadyApproved
  | UpgradeFailed | MigrationNotRequired | PlanNotClaimed | KycAlreadyRejected
  | InsufficientBalance | FeeTransferFailed | InsufficientLiquidity
  | InheritanceAlreadyTriggered | InheritanceNotTriggered | LoanRecallFailed
  | NoOutstandingLoans | Trap
  deriving DecidableEq, Repr

structure ClaimRecord where
  plan_id : Nat
  beneficiary_index : Nat
  claimed_at : Nat
  deriving DecidableEq, Repr

structure KycStatus where
  submitted : Bool
  approved : Bool
  rejected : Bool
  submitted_at : Nat
  approved_at : Nat
  rejected_at : Nat
  deriving DecidableEq, Repr

structure InheritanceTriggerInfo where
  triggered_at : Nat
  loan_freeze_active : Bool
  recall_attempted : Bool
  liquidation_triggered : Bool
  original_loaned : Nat
  recalled_amount : Nat
  settled_amount : Nat
  deriving DecidableEq, Repr

inductive InhEvent
  | BeneficiaryAdded (plan_id : Nat) (hashed_email : List Nat) (allocation_bp : Nat)
  | BeneficiaryRemoved (plan_id index allocation_bp : Nat)
  | PlanDeactivated (plan_id : Nat) (owner : Addr) (total_amount deactivated_at : Nat)
  | KycApproved (user : Addr) (approved_at : Nat)
  | KycRejected (user : Addr) (rejected_at : Nat)
  | VaultDeposit (plan_id amount : Nat)
  | VaultWithdraw (plan_id amount : Nat)
  | VaultLendableChanged (plan_id : Nat) (is_lendable : Bool)
  | InheritanceTriggered (plan_id triggered_at outstanding_loans : Nat)
  | LoanFreeze (plan_id frozen_at : Nat)
  | LoanRecall (plan_id recalled_amount remaining_loaned : Nat)
  | LiquidationFallback (plan_id settled_amount claimable_amount : Nat)
  | ClaimSuccess (plan_id : Nat) (hashed_email : List Nat) (payout : Nat)
  deriving DecidableEq, Repr

/-- The full storage of the inheritance contract, plus the balances of the
token contracts it invokes (`bal tok a` is the balance of `a` in token
contract `tok`). -/
structure InhState where
  nextPlanId : Nat
  plans : Nat → Option InheritancePlan
  claims : List Nat → Option ClaimRecord
  userPlans : Addr → List Nat
  userClaimedPlans : Addr → List Nat
  allClaimedPlans : List Nat
  deactivatedPlans : List Nat
  kyc : Addr → Option KycStatus
  triggers : Nat → Option InheritanceTriggerInfo
  admin : Option Addr
  bal : Addr → Addr → Nat

/-- `hash_string` from the source: it feeds the *index* (mod 256) of each
character position into the digest, not the byte itself (a known quirk of
the source, preserved faithfully here). -/
def hashString (input : List Nat) : List Nat :=
  sha256 ((List.range input.length).map (fun i => i % 256))

/-- ASCII bytes of the zero-padded 6-digit claim code. -/
def claimCodeBytes (claim_code : Nat) : List Nat :=
  (List.range 6).map (fun i => claim_code / 10 ^ (5 - i) % 10 + 48)

/-- `hash_claim_code`: validates the 6-digit range then hashes the ASCII digits. -/
def hashClaimCode (claim_code : Nat) : Except InheritanceError (List Nat) :=
  if 999999 < claim_code then .error .InvalidClaimCodeRange
  else .ok (sha256 (claimCodeBytes claim_code))

/-- The composite claim key: `sha256(plan_id_be_bytes ++ hashed_email)`. -/
def claimKey (plan_id : Nat) (hashed_email : List Nat) : List Nat :=
  sha256 (beBytes 8 plan_id ++ hashed_email)

/-- Point update of a token ledger. -/
def setBal (bal : Addr → Addr → Nat) (tok a : Addr) (v : Nat) : Addr → Addr → Nat :=
  fun t x => if t = tok ∧ x = a then v else bal t x

/-- The ledger after moving `amount` from `source` to `dest` in token `tok`. -/
def applyTransfer (bal : Addr → Addr → Nat) (tok source dest : Addr) (amount : Nat) :
    Addr → Addr → Nat :=
  let bal1 := setBal bal tok source (bal tok source - amount)
  setBal bal1 tok dest (bal1 tok dest + amount)

/-- Token `transfer` invocation: succeeds iff the sender holds the amount
(the standard token contract fails otherwise, surfacing as a recoverable
error through `try_invoke_contract`). -/
def tryTransfer (bal : Addr → Addr → Nat) (tok source dest : Addr) (amount : Nat) :
    Option (Addr → Addr → Nat) :=
  if amount ≤ bal tok source then some (applyTransfer bal tok source dest amount)
  else none

/-- Append to a `Vec<u64>` index only if absent (mirrors the source's
duplicate guard in `add_plan_to_claimed` / `add_plan_to_deactivated`). -/
def addUnique (l : List Nat) (x : Nat) : List Nat :=
  if x ∈ l then l else l ++ [x]

/-- `require_admin`: auth plus equality with the stored admin. -/
def requireAdmin (s : InhState) (admin : Addr) : Except InheritanceError Unit :=
  match s.admin with
  | none => .error .AdminNotSet
  | some a => if a ≠ admin then .error .NotAdmin else .ok ()

/-- The per-method time gate (`is_claim_time_valid`).  `elapsed` is
`now - created_at`; theorems about it assume `created_at ≤ now` (the
source would trap on a clock earlier than the plan's creation). -/
def isClaimTimeValid (now : Nat) (plan : InheritancePlan) : Bool :=
  let elapsed := now - plan.created_at
  match plan.distribution_method with
  | .LumpSum => true
  | .Monthly => decide (30 * 24 * 60 * 60 ≤ elapsed)
  | .Quarterly => decide (90 * 24 * 60 * 60 ≤ elapsed)
  | .Yearly => decide (365 * 24 * 60 * 60 ≤ elapsed)

/-- First beneficiary whose hashed email and claim code both match, with
its index (the source's linear scan with break). -/
def findBeneficiary : List Beneficiary → List Nat → List Nat → Option (Nat × Beneficiary)
  | [], _, _ => none
  | b :: bs, he, hc =>
    if b.hashed_email = he ∧ b.hashed_claim_code = hc then some (0, b)
    else (findBeneficiary bs he hc).map (fun p => (p.1 + 1, p.2))

/-- `base_payout = total_amount * allocation_bp / 10000`, computed in
u128 and cast back to u64. -/
def basePayout (plan : InheritancePlan) (b : Beneficiary) : Nat :=
  (plan.total_amount * b.allocation_bp / 10000) % 2 ^ 64

/-- `claim_inheritance_plan`.  State writes are collected at the end:
the source writes the claim record before the liquidity check, but a
returned error rolls every write back, so the committed effect is
identical. -/
def claimInheritancePlan (s : InhState) (plan_id : Nat) (email : List Nat)
    (claim_code : Nat) (now : Nat) : Except InheritanceError (InhState × List InhEvent) :=
  match s.plans plan_id with
  | none => .error .PlanNotFound
  | some plan =>
    if !plan.is_active then .error .PlanNotActive
    else
      let triggered := (s.triggers plan_id).isSome
      if !triggered && !isClaimTimeValid now plan then .error .ClaimNotAllowedYet
      else
        let hashed_email := hashString email
        match hashClaimCode claim_code with
        | .error e => .error e
        | .ok hashed_claim_code =>
          let key := claimKey plan_id hashed_email
          if (s.claims key).isSome then .error .AlreadyClaimed
          else
            match findBeneficiary plan.beneficiaries hashed_email hashed_claim_code with
            | none => .error .BeneficiaryNotFound
            | some (index, beneficiary) =>
              let payout := basePayout plan beneficiary
              let available_liquidity := plan.total_amount - plan.total_loaned
              if !triggered && decide (available_liquidity < payout) then
                .error .InsufficientLiquidity
              else
                let record : ClaimRecord :=
                  { plan_id := plan_id, beneficiary_index := index, claimed_at := now }
                let plan' := { plan with total_amount := plan.total_amount - payout }
                .ok ({ s with
                        claims := fun k => if k = key then some record else s.claims k,
                        plans := fun p => if p = plan_id then some plan' else s.plans p,
                        userClaimedPlans := fun a =>
                          if a = plan.owner then addUnique (s.userClaimedPlans plan.owner) plan_id
                          else s.userClaimedPlans a,
                        allClaimedPlans := addUnique s.allClaimedPlans plan_id },
                      [.ClaimSuccess plan_id hashed_email payout])

/-- Creation fee in basis points (2% = 200 bp). -/
def CREATION_FEE_BP : Nat := 200

structure CreateParams where
  owner : Addr
  token : Addr
  plan_name : List Nat
  description : List Nat
  total_amount : Nat
  distribution_method : DistributionMethod
  beneficiaries_data : List (List Nat × List Nat × Nat × List Nat × Nat)
  is_lendable : Bool

structure BeneficiaryInput where
  name : List Nat
  email : List Nat
  claim_code : Nat
  bank_account : List Nat
  allocation_bp : Nat

/-- `create_beneficiary`: validates the fields and hashes the sensitive data. -/
def createBeneficiary (full_name email : List Nat) (claim_code : Nat)
    (bank_account : List Nat) (allocation_bp : Nat) : Except InheritanceError Beneficiary :=
  if full_name.isEmpty || email.isEmpty || bank_account.isEmpty then .error .InvalidBeneficiaryData
  else if allocation_bp = 0 then .error .InvalidAllocation
  else
    match hashClaimCode claim_code with
    | .error e => .error e
    | .ok hcc => .ok {
        hashed_full_name := hashString full_name,
        hashed_email := hashString email,
        hashed_claim_code := hcc,
        bank_account := bank_account,
        allocation_bp := allocation_bp }

/-- `validate_plan_inputs`. -/
def validatePlanInputs (plan_name description : List Nat) (asset_type : String)
    (total_amount : Nat) : Except InheritanceError Unit :=
  if plan_name.isEmpty then .error .MissingRequiredField
  else if 500 < description.length then .error .DescriptionTooLong
  else if asset_type ≠ "USDC" then .error .InvalidAssetType
  else if total_amount = 0 then .error .InvalidTotalAmount
  else .ok ()

/-- `validate_beneficiaries`: at most 10, nonempty, allocations summing
to exactly 10000 bp. -/
def validateBeneficiaries (bd : List (List Nat × List Nat × Nat × List Nat × Nat)) :
    Except InheritanceError Unit :=
  if 10 < bd.length then .error .TooManyBeneficiaries
  else if bd.isEmpty then .error .MissingRequiredField
  else if (bd.map (fun t => t.2.2.2.2)).sum ≠ 10000 then .error .AllocationPercentageMismatch
  else .ok ()

/-- The beneficiary-construction loop of `create_inheritance_plan`,
returning the built list together with the accumulated allocation. -/
def createBeneficiaries : List (List Nat × List Nat × Nat × List Nat × Nat) →
    Except InheritanceError (List Beneficiary × Nat)
  | [] => .ok ([], 0)
  | (n, e, c, ba, bp) :: rest =>
    match createBeneficiary n e c ba bp with
    | .error err => .error err
    | .ok b =>
      match createBeneficiaries rest with
      | .error err => .error err
      | .ok (bs, t) => .ok (b :: bs, bp + t)

/-- `create_inheritance_plan`.  The fee uses the u64 checked chain
`total_amount.checked_mul(200).and_then(/10000).unwrap_or(0)`, so a
multiplication overflow collapses the fee to 0. -/
def createInheritancePlan (s : InhState) (params : CreateParams) (now : Nat) :
    Except InheritanceError (InhState × Nat) :=
  match s.admin with
  | none => .error .AdminNotSet
  | some admin =>
    let fee := if params.total_amount * CREATION_FEE_BP < 2 ^ 64 then
                 params.total_amount * CREATION_FEE_BP / 10000
               else 0
    if params.total_amount < fee then .error .InvalidTotalAmount
    else
      let net_amount := params.total_amount - fee
      if net_amount = 0 then .error .InvalidTotalAmount
      else
        match validatePlanInputs params.plan_name params.description "USDC"
            params.total_amount with
        | .error e => .error e
        | .ok _ =>
          if s.bal params.token params.owner < params.total_amount then
            .error .InsufficientBalance
          else
            let balAfterFee :=
              if fee = 0 then some s.bal
              else tryTransfer s.bal params.token params.owner admin fee
            match balAfterFee with
            | none => .error .FeeTransferFailed
            | some bal1 =>
              match tryTransfer bal1 params.token params.owner contractAddr net_amount with
              | none => .error .FeeTransferFailed
              | some bal2 =>
                match validateBeneficiaries params.beneficiaries_data with
                | .error e => .error e
                | .ok _ =>
                  match createBeneficiaries params.beneficiaries_data with
                  | .error e => .error e
                  | .ok (beneficiaries, total_allocation_bp) =>
                    let plan : InheritancePlan := {
                      plan_name := params.plan_name,
                      description := params.description,
                      asset_type := "USDC",
                      total_amount := net_amount,
                      distribution_method := params.distribution_method,
                      beneficiaries := beneficiaries,
                      total_allocation_bp := total_allocation_bp,
                      owner := params.owner,
                      created_at := now,
                      is_active := true,
                      is_lendable := params.is_lendable,
                      total_loaned := 0 }
                    let plan_id := s.nextPlanId
                    .ok ({ s with
                            nextPlanId := plan_id + 1,
                            plans := fun p => if p = plan_id then some plan else s.plans p,
                            userPlans := fun a =>
                              if a = params.owner then s.userPlans params.owner ++ [plan_id]
                              else s.userPlans a,
                            bal := bal2 },
                          plan_id)

/-- `initialize_admin`: one-shot admin setup. -/
def initializeAdmin (s : InhState) (admin : Addr) : Except InheritanceError InhState :=
  match s.admin with
  | some _ => .error .AdminAlreadyInitialized
  | none => .ok { s with admin := some admin }

/-- `set_lendable`: owner-authorized pure bit flip. -/
def setLendable (s : InhState) (owner : Addr) (plan_id : Nat) (is_lendable : Bool) :
    Except InheritanceError (InhState × List InhEvent) :=
  match s.plans plan_id with
  | none => .error .PlanNotFound
  | some plan =>
    if plan.owner ≠ owner then .error .Unauthorized
    else
      let plan' := { plan with is_lendable := is_lendable }
      .ok ({ s with plans := fun p => if p = plan_id then some plan' else s.plans p },
           [.VaultLendableChanged plan_id is_lendable])

/-- `deposit`: owner-authorized top-up of an active plan. -/
def deposit (s : InhState) (owner token : Addr) (plan_id amount : Nat) :
    Except InheritanceError (InhState × List InhEvent) :=
  if amount = 0 then .error .InvalidTotalAmount
  else
    match s.plans plan_id with
    | none => .error .PlanNotFound
    | some plan =>
      if plan.owner ≠ owner then .error .Unauthorized
      else if !plan.is_active then .error .PlanNotActive
      else if s.bal token owner < amount then .error .InsufficientBalance
      else
        match tryTransfer s.bal token owner contractAddr amount with
        | none => .error .FeeTransferFailed
        | some bal' =>
          if 2 ^ 64 ≤ plan.total_amount + amount then .error .Trap
          else
            let plan' := { plan with total_amount := plan.total_amount + amount }
            .ok ({ s with
                    plans := fun p => if p = plan_id then some plan' else s.plans p,
                    bal := bal' },
                 [.VaultDeposit plan_id amount])

/-- `withdraw`: owner-authorized, limited to the unloaned liquidity. -/
def withdraw (s : InhState) (owner token : Addr) (plan_id amount : Nat) :
    Except InheritanceError (InhState × List InhEvent) :=
  if amount = 0 then .error .InvalidTotalAmount
  else
    match s.plans plan_id with
    | none => .error .PlanNotFound
    | some plan =>
      if plan.owner ≠ owner then .error .Unauthorized
      else
        let available := plan.total_amount - plan.total_loaned
        if available < amount then .error .InsufficientLiquidity
        else
          match tryTransfer s.bal token contractAddr owner amount with
          | none => .error .FeeTransferFailed
          | some bal' =>
            let plan' := { plan with total_amount := plan.total_amount - amount }
            .ok ({ s with
                    plans := fun p => if p = plan_id then some plan' else s.plans p,
                    bal := bal' },
                 [.VaultWithdraw plan_id amount])

/-- `add_beneficiary`. -/
def addBeneficiary (s : InhState) (owner : Addr) (plan_id : Nat) (input : BeneficiaryInput) :
    Except InheritanceError (InhState × List InhEvent) :=
  match s.plans plan_id with
  | none => .error .PlanNotFound
  | some plan =>
    if plan.owner ≠ owner then .error .Unauthorized
    else if 10 ≤ plan.beneficiaries.length then .error .TooManyBeneficiaries
    else if input.allocation_bp = 0 then .error .InvalidAllocation
    else if 2 ^ 32 ≤ plan.total_allocation_bp + input.allocation_bp then .error .Trap
    else
      let new_total := plan.total_allocation_bp + input.allocation_bp
      if 10000 < new_total then .error .AllocationExceedsLimit
      else
        match createBeneficiary input.name input.email input.claim_code
            input.bank_account input.allocation_bp with
        | .error e => .error e
        | .ok b =>
          let plan' := { plan with
                          beneficiaries := plan.beneficiaries ++ [b],
                          total_allocation_bp := new_total }
          .ok ({ s with plans := fun p => if p = plan_id then some plan' else s.plans p },
               [.BeneficiaryAdded plan_id b.hashed_email input.allocation_bp])

/-- Default beneficiary value used for the (guarded) `getD` access in the
swap-with-last removal. -/
def dummyBeneficiary : Beneficiary :=
  { hashed_full_name := [], hashed_email := [], hashed_claim_code := [],
    bank_account := [], allocation_bp := 0 }

/-- `remove_beneficiary`: O(1) swap-with-last removal. -/
def removeBeneficiary (s : InhState) (owner : Addr) (plan_id : Nat) (index : Nat) :
    Except InheritanceError (InhState × List InhEvent) :=
  match s.plans plan_id with
  | none => .error .PlanNotFound
  | some plan =>
    if plan.owner ≠ owner then .error .Unauthorized
    else if plan.beneficiaries.length ≤ index then .error .InvalidBeneficiaryIndex
    else
      let removed := (plan.beneficiaries.getD index dummyBeneficiary).allocation_bp
      if plan.total_allocation_bp < removed then .error .Trap
      else
        let last_index := plan.beneficiaries.length - 1
        let swapped :=
          if index ≠ last_index then
            plan.beneficiaries.set index (plan.beneficiaries.getD last_index dummyBeneficiary)
          else plan.beneficiaries
        let plan' := { plan with
                        beneficiaries := swapped.dropLast,
                        total_allocation_bp := plan.total_allocation_bp - removed }
        .ok ({ s with plans := fun p => if p = plan_id then some plan' else s.plans p },
             [.BeneficiaryRemoved plan_id index removed])

/-- `deactivate_inheritance_plan`. -/
def deactivateInheritancePlan (s : InhState) (owner : Addr) (plan_id : Nat) (now : Nat) :
    Except InheritanceError (InhState × List InhEvent) :=
  match s.plans plan_id with
  | none => .error .PlanNotFound
  | some plan =>
    if plan.owner ≠ owner then .error .Unauthorized
    else if !plan.is_active then .error .PlanAlreadyDeactivated
    else
      let plan' := { plan with is_active := false }
      .ok ({ s with
              plans := fun p => if p = plan_id then some plan' else s.plans p,
              deactivatedPlans := addUnique s.deactivatedPlans plan_id },
           [.PlanDeactivated plan_id owner plan'.total_amount now])

/-- `submit_kyc`: user-authorized, idempotent while not approved. -/
def submitKyc (s : InhState) (user : Addr) (now : Nat) : Except InheritanceError InhState :=
  let status := (s.kyc user).getD
    { submitted := false, approved := false, rejected := false,
      submitted_at := 0, approved_at := 0, rejected_at := 0 }
  if status.approved then .error .KycAlreadyApproved
  else
    let status' := { status with submitted := true, submitted_at := now }
    .ok { s with kyc := fun a => if a = user then some status' else s.kyc a }

/-- `approve_kyc` (admin-only).  The source checks `submitted` and
`approved`; it does not consult the `rejected` flag. -/
def approveKyc (s : InhState) (admin user : Addr) (now : Nat) :
    Except InheritanceError (InhState × List InhEvent) :=
  match requireAdmin s admin with
  | .error e => .error e
  | .ok _ =>
    match s.kyc user with
    | none => .error .KycNotSubmitted
    | some status =>
      if !status.submitted then .error .KycNotSubmitted
      else if status.approved then .error .KycAlreadyApproved
      else
        let status' := { status with approved := true, approved_at := now }
        .ok ({ s with kyc := fun a => if a = user then some status' else s.kyc a },
             [.KycApproved user now])

/-- `reject_kyc` (admin-only).  The source checks `submitted` and
`rejected`; it does not consult the `approved` flag. -/
def rejectKyc (s : InhState) (admin user : Addr) (now : Nat) :
    Except InheritanceError (InhState × List InhEvent) :=
  match requireAdmin s admin with
  | .error e => .error e
  | .ok _ =>
    match s.kyc user with
    | none => .error .KycNotSubmitted
    | some status =>
      if !status.submitted then .error .KycNotSubmitted
      else if status.rejected then .error .KycAlreadyRejected
      else
        let status' := { status with rejected := true, rejected_at := now }
        .ok ({ s with kyc := fun a => if a = user then some status' else s.kyc a },
             [.KycRejected user now])

/-- `trigger_inheritance` (admin-only): freezes lending and records the
trigger info. -/
def triggerInheritance (s : InhState) (admin : Addr) (plan_id : Nat) (now : Nat) :
    Except InheritanceError (InhState × List InhEvent) :=
  match requireAdmin s admin with
  | .error e => .error e
  | .ok _ =>
    match s.plans plan_id with
    | none => .error .PlanNotFound
    | some plan =>
      if !plan.is_active then .error .PlanNotActive
      else if (s.triggers plan_id).isSome then .error .InheritanceAlreadyTriggered
      else
        let plan' := { plan with is_lendable := false }
        let info : InheritanceTriggerInfo :=
          { triggered_at := now, loan_freeze_active := true, recall_attempted := false,
            liquidation_triggered := false, original_loaned := plan.total_loaned,
            recalled_amount := 0, settled_amount := 0 }
        .ok ({ s with
                plans := fun p => if p = plan_id then some plan' else s.plans p,
                triggers := fun p => if p = plan_id then some info else s.triggers p },
             [.InheritanceTriggered plan_id now plan.total_loaned,
              .LoanFreeze plan_id now])

/-- `recall_loan` (admin-only): accounting-only reduction of `total_loaned`. -/
def recallLoan (s : InhState) (admin : Addr) (plan_id recall_amount : Nat) :
    Except InheritanceError (InhState × List InhEvent) :=
  match requireAdmin s admin with
  | .error e => .error e
  | .ok _ =>
    match s.plans plan_id with
    | none => .error .PlanNotFound
    | some plan =>
      match s.triggers plan_id with
      | none => .error .InheritanceNotTriggered
      | some info =>
        if plan.total_loaned = 0 then .error .NoOutstandingLoans
        else if recall_amount = 0 || plan.total_loaned < recall_amount then
          .error .LoanRecallFailed
        else
          let plan' := { plan with total_loaned := plan.total_loaned - recall_amount }
          if 2 ^ 64 ≤ info.recalled_amount + recall_amount then .error .Trap
          else
            let info' := { info with
                            recall_attempted := true,
                            recalled_amount := info.recalled_amount + recall_amount }
            .ok ({ s with
                    plans := fun p => if p = plan_id then some plan' else s.plans p,
                    triggers := fun p => if p = plan_id then some info' else s.triggers p },
                 [.LoanRecall plan_id recall_amount plan'.total_loaned])

/-- `liquidation_fallback` (admin-only): writes off the remaining
`total_loaned` from `total_amount` (saturating). -/
def liquidationFallback (s : InhState) (admin : Addr) (plan_id : Nat) :
    Except InheritanceError (InhState × List InhEvent) :=
  match requireAdmin s admin with
  | .error e => .error e
  | .ok _ =>
    match s.plans plan_id with
    | none => .error .PlanNotFound
    | some plan =>
      match s.triggers plan_id with
      | none => .error .InheritanceNotTriggered
      | some info =>
        if plan.total_loaned = 0 then .error .NoOutstandingLoans
        else
          let unrecoverable := plan.total_loaned
          let plan' := { plan with
                          total_amount := plan.total_amount - unrecoverable,
                          total_loaned := 0 }
          if 2 ^ 64 ≤ info.settled_amount + unrecoverable then .error .Trap
          else
            let info' := { info with
                            liquidation_triggered := true,
                            settled_amount := info.settled_amount + unrecoverable }
            .ok ({ s with
                    plans := fun p => if p = plan_id then some plan' else s.plans p,
                    triggers := fun p => if p = plan_id then some info' else s.triggers p },
                 [.LiquidationFallback plan_id unrecoverable plan'.total_amount])

/-- One external entry point of the inheritance contract together with its
arguments (`now` is the ledger timestamp at the call). -/
inductive InhOp
  | create (params : CreateParams) (now : Nat)
  | initAdmin (admin : Addr)
  | setLendable (owner : Addr) (plan_id : Nat) (flag : Bool)
  | deposit (owner token : Addr) (plan_id amount : Nat)
  | withdraw (owner token : Addr) (plan_id amount : Nat)
  | addBeneficiary (owner : Addr) (plan_id : Nat) (input : BeneficiaryInput)
  | removeBeneficiary (owner : Addr) (plan_id index : Nat)
  | deactivate (owner : Addr) (plan_id now : Nat)
  | claim (plan_id : Nat) (email : List Nat) (claim_code now : Nat)
  | submitKyc (user : Addr) (now : Nat)
  | approveKyc (admin user : Addr) (now : Nat)
  | rejectKyc (admin user : Addr) (now : Nat)
  | trigger (admin : Addr) (plan_id now : Nat)
  | recall (admin : Addr) (plan_id amount : Nat)
  | liquidation (admin : Addr) (plan_id : Nat)

/-- Dispatch one operation, discarding return values and events. -/
def step (s : InhState) : InhOp → Except InheritanceError InhState
  | .create params now => (createInheritancePlan s params now).map (·.1)
  | .initAdmin admin => initializeAdmin s admin
  | .setLendable owner plan_id flag => (setLendable s owner plan_id flag).map (·.1)
  | .deposit owner token plan_id amount => (deposit s owner token plan_id amount).map (·.1)
  | .withdraw owner token plan_id amount => (withdraw s owner token plan_id amount).map (·.1)
  | .addBeneficiary owner plan_id input => (addBeneficiary s owner plan_id input).map (·.1)
  | .removeBeneficiary owner plan_id index => (removeBeneficiary s owner plan_id index).map (·.1)
  | .deactivate owner plan_id now => (deactivateInheritancePlan s owner plan_id now).map (·.1)
  | .claim plan_id email code now => (claimInheritancePlan s plan_id email code now).map (·.1)
  | .submitKyc user now => submitKyc s user now
  | .approveKyc admin user now => (approveKyc s admin user now).map (·.1)
  | .rejectKyc admin user now => (rejectKyc s admin user now).map (·.1)
  | .trigger admin plan_id now => (triggerInheritance s admin plan_id now).map (·.1)
  | .recall admin plan_id amount => (recallLoan s admin plan_id amount).map (·.1)
  | .liquidation admin plan_id => (liquidationFallback s admin plan_id).map (·.1)

end Inh

namespace Lending

/-- Address of the lending contract itself in the token-ledger model. -/
def contractAddr : Addr := 200

def MINIMUM_LIQUIDITY : Nat := 1000

def PROTOCOL_INTEREST_BPS : Nat := 1000

def BAD_DEBT_RESERVE_BPS : Nat := 5000

def SECONDS_IN_YEAR : Nat := 31536000

structure PoolState where
  total_deposits : Nat
  total_shares : Nat
  total_borrowed : Nat
  base_rate_bps : Nat
  multiplier_bps : Nat
  utilization_cap_bps : Nat
  retained_yield : Nat
  bad_debt_reserve : Nat
  deriving DecidableEq, Repr

structure LoanRecord where
  loan_id : Nat
  borrower : Addr
  principal : Nat
  collateral_amount : Nat
  collateral_token : Addr
  borrow_time : Nat
  due_date : Nat
  interest_rate_bps : Nat
  deriving DecidableEq, Repr

/-- Error taxonomy of the lending contract; `Trap` models a Rust panic. -/
inductive LendingError
  | NotInitialized | AlreadyInitialized | NotAdmin | InsufficientLiquidity
  | InsufficientShares | NoOpenLoan | LoanAlreadyExists | InvalidAmount
  | TransferFailed | Unauthorized | InsufficientCollateral | CollateralNotWhitelisted
  | UtilizationCapExceeded | Trap
  deriving DecidableEq, Repr

/-- Full storage of the lending contract plus the token ledgers it touches. -/
structure LState where
  admin : Option Addr
  token : Addr
  pool : PoolState
  shares : Addr → Nat
  loanOf : Addr → Option LoanRecord
  loanById : Nat → Option LoanRecord
  nextLoanId : Nat
  collateral_ratio_bps : Nat
  whitelisted : Addr → Bool
  bal : Addr → Addr → Nat

/-- `transfer` helper of the lending contract: a failed token invocation
surfaces as `TransferFailed`. -/
def transfer (bal : Addr → Addr → Nat) (tok source dest : Addr) (amount : Nat) :
    Except LendingError (Addr → Addr → Nat) :=
  match Inh.tryTransfer bal tok source dest amount with
  | none => .error .TransferFailed
  | some bal' => .ok bal'

/-- `shares_for_deposit`: 1:1 on genesis, otherwise proportional with a
u128 intermediate and a u64 cast on the result. -/
def sharesForDeposit (pool : PoolState) (amount : Nat) : Nat :=
  if pool.total_shares = 0 || pool.total_deposits = 0 then amount
  else (amount * pool.total_shares / pool.total_deposits) % 2 ^ 64

/-- `assets_for_shares`. -/
def assetsForShares (pool : PoolState) (shares : Nat) : Nat :=
  if pool.total_shares = 0 then 0
  else (shares * pool.total_deposits / pool.total_shares) % 2 ^ 64

/-- `calculate_interest`: simple interest with a u128 checked numerator
(overflow collapses to 0) and a u64 cast on the result. -/
def calculateInterest (principal rate_bps elapsed_seconds : Nat) : Nat :=
  if elapsed_seconds = 0 || rate_bps = 0 then 0
  else
    let numerator := if principal * rate_bps * elapsed_seconds < 2 ^ 128 then
                       principal * rate_bps * elapsed_seconds
                     else 0
    (numerator / (10000 * SECONDS_IN_YEAR)) % 2 ^ 64

/-- `get_utilization_bps` with its u32 cast. -/
def getUtilizationBps (total_borrowed total_deposits : Nat) : Nat :=
  if total_deposits = 0 then 0
  else (total_borrowed * 10000 / total_deposits) % 2 ^ 32

/-- `calculate_dynamic_rate`: base rate saturating-plus the
utilization-indexed variable rate (u64 product, u32 cast, saturating add
capped at the u32 maximum). -/
def calculateDynamicRate (base_rate_bps multiplier_bps utilization_bps : Nat) : Nat :=
  let variable_rate := utilization_bps * multiplier_bps / 10000
  min (base_rate_bps + variable_rate % 2 ^ 32) (2 ^ 32 - 1)

/-- `deposit`. -/
def deposit (s : LState) (depositor : Addr) (amount : Nat) :
    Except LendingError (LState × Nat) :=
  if s.admin.isNone then .error .NotInitialized
  else if amount = 0 then .error .InvalidAmount
  else
    match transfer s.bal s.token depositor contractAddr amount with
    | .error e => .error e
    | .ok bal' =>
      let pool := s.pool
      let shares0 := sharesForDeposit pool amount
      let locked :=
        if pool.total_shares = 0 then
          if shares0 ≤ MINIMUM_LIQUIDITY then none
          else some (shares0 - MINIMUM_LIQUIDITY, MINIMUM_LIQUIDITY)
        else some (shares0, 0)
      match locked with
      | none => .error .InvalidAmount
      | some (shares, lock) =>
        if shares = 0 then .error .InvalidAmount
        else if 2 ^ 64 ≤ pool.total_deposits + amount then .error .Trap
        else if 2 ^ 64 ≤ pool.total_shares + lock + shares then .error .Trap
        else if 2 ^ 64 ≤ s.shares depositor + shares then .error .Trap
        else
          let pool' := { pool with
                          total_deposits := pool.total_deposits + amount,
                          total_shares := pool.total_shares + lock + shares }
          .ok ({ s with
                  pool := pool',
                  shares := fun a => if a = depositor then s.shares depositor + shares
                            else s.shares a,
                  bal := bal' },
                shares)

/-- `borrow`. -/
def borrow (s : LState) (borrower : Addr) (amount : Nat) (collateral_token : Addr)
    (collateral_amount duration_seconds now : Nat) :
    Except LendingError (LState × Nat) :=
  if s.admin.isNone then .error .NotInitialized
  else if amount = 0 || collateral_amount = 0 then .error .InvalidAmount
  else if !s.whitelisted collateral_token then .error .CollateralNotWhitelisted
  else if (s.loanOf borrower).isSome then .error .LoanAlreadyExists
  else
    let required_collateral := (amount * s.collateral_ratio_bps / 10000) % 2 ^ 64
    if collateral_amount < required_collateral then .error .InsufficientCollateral
    else
      let pool := s.pool
      let available := pool.total_deposits - pool.total_borrowed
      if available < amount then .error .InsufficientLiquidity
      else if 2 ^ 64 ≤ pool.total_borrowed + amount then .error .Trap
      else
        let new_borrowed := pool.total_borrowed + amount
        let new_utilization_bps := getUtilizationBps new_borrowed pool.total_deposits
        if pool.utilization_cap_bps < new_utilization_bps then .error .UtilizationCapExceeded
        else
          match transfer s.bal collateral_token borrower contractAddr collateral_amount with
          | .error e => .error e
          | .ok bal1 =>
            let pool' := { pool with total_borrowed := new_borrowed }
            let utilization_bps := getUtilizationBps pool'.total_borrowed pool'.total_deposits
            let dynamic_rate_bps :=
              calculateDynamicRate pool.base_rate_bps pool.multiplier_bps utilization_bps
            let loan_id := s.nextLoanId
            if 2 ^ 64 ≤ now + duration_seconds then .error .Trap
            else
              let loan : LoanRecord := {
                loan_id := loan_id,
                borrower := borrower,
                principal := amount,
                collateral_amount := collateral_amount,
                collateral_token := collateral_token,
                borrow_time := now,
                due_date := now + duration_seconds,
                interest_rate_bps := dynamic_rate_bps }
              match transfer bal1 s.token contractAddr borrower amount with
              | .error e => .error e
              | .ok bal2 =>
                .ok ({ s with
                        pool := pool',
                        nextLoanId := loan_id + 1,
                        loanOf := fun a => if a = borrower then some loan else s.loanOf a,
                        loanById := fun i => if i = loan_id then some loan else s.loanById i,
                        bal := bal2 },
                      loan_id)

/-- `repay`: full repayment, collateral return, and the 10%/50% interest
split into retained yield and the bad-debt reserve. -/
def repay (s : LState) (borrower : Addr) (now : Nat) : Except LendingError (LState × Nat) :=
  if s.admin.isNone then .error .NotInitialized
  else
    match s.loanOf borrower with
    | none => .error .NoOpenLoan
    | some loan =>
      let elapsed := now - loan.borrow_time
      let interest := calculateInterest loan.principal loan.interest_rate_bps elapsed
      if 2 ^ 64 ≤ loan.principal + interest then .error .Trap
      else
        let total_repayment := loan.principal + interest
        match transfer s.bal s.token borrower contractAddr total_repayment with
        | .error e => .error e
        | .ok bal1 =>
          match transfer bal1 loan.collateral_token contractAddr borrower
              loan.collateral_amount with
          | .error e => .error e
          | .ok bal2 =>
            let pool := s.pool
            if pool.total_borrowed < loan.principal then .error .Trap
            else
              let protocol_share := interest * PROTOCOL_INTEREST_BPS / 10000
              let reserve_share := protocol_share * BAD_DEBT_RESERVE_BPS / 10000
              let retained_share := protocol_share - reserve_share
              let pool_share := interest - protocol_share
              if 2 ^ 64 ≤ pool.total_deposits + pool_share then .error .Trap
              else if 2 ^ 64 ≤ pool.retained_yield + retained_share then .error .Trap
              else if 2 ^ 64 ≤ pool.bad_debt_reserve + reserve_share then .error .Trap
              else
                let pool' := { pool with
                                total_borrowed := pool.total_borrowed - loan.principal,
                                total_deposits := pool.total_deposits + pool_share,
                                retained_yield := pool.retained_yield + retained_share,
                                bad_debt_reserve := pool.bad_debt_reserve + reserve_share }
                .ok ({ s with
                        pool := pool',
                        loanOf := fun a => if a = borrower then none else s.loanOf a,
                        loanById := fun i => if i = loan.loan_id then none else s.loanById i,
                        bal := bal2 },
                      total_repayment)

end Lending

namespace Borrowing

/-- Address of the borrowing contract itself in the token-ledger model. -/
def contractAddr : Addr := 300

/-- i128 bounds. -/
def I128_MIN : Int := -(2 ^ 127)

def I128_MAX : Int := 2 ^ 127 - 1

/-- Rust `as u128` cast of an i128 value (two's complement). -/
def toU128 (x : Int) : Nat := (x % 2 ^ 128).toNat

/-- Rust `as i128` cast of a u128 value (two's complement). -/
def ofU128 (n : Nat) : Int := if n < 2 ^ 127 then (n : Int) else (n : Int) - 2 ^ 128

structure Loan where
  borrower : Addr
  principal : Int
  interest_rate : Nat
  due_date : Nat
  amount_repaid : Int
  collateral_amount : Int
  collateral_token : Addr
  is_active : Bool
  deriving DecidableEq, Repr

/-- Error taxonomy of the borrowing contract; `Trap` models a Rust panic
(missing-loan `unwrap`, i128 overflow, or a trapping token transfer). -/
inductive BorrowingError
  | AlreadyInitialized | Unauthorized | InsufficientCollateral | CollateralNotWhitelisted
  | LoanNotFound | LoanHealthy | LoanNotActive | InvalidAmount | Paused | Trap
  deriving DecidableEq, Repr

/-- Full storage of the borrowing contract plus the token ledgers it
touches (balances are i128 like the token interface). -/
structure BState where
  admin : Option Addr
  collateral_ratio_bps : Option Nat
  liquidation_threshold_bps : Option Nat
  liquidation_bonus_bps : Option Nat
  whitelisted : Addr → Bool
  globalPause : Bool
  vaultPause : Addr → Bool
  loanCounter : Nat
  loans : Nat → Option Loan
  bal : Addr → Addr → Int

/-- `get_collateral_ratio` with its 15000 default. -/
def getCollateralRatioBps (s : BState) : Nat := s.collateral_ratio_bps.getD 15000

/-- `get_liquidation_threshold` with its 12000 default. -/
def getLiquidationThreshold (s : BState) : Nat := s.liquidation_threshold_bps.getD 12000

/-- `get_liquidation_bonus` with its 500 default. -/
def getLiquidationBonus (s : BState) : Nat := s.liquidation_bonus_bps.getD 500

/-- Point update of an i128 token ledger. -/
def setBalI (bal : Addr → Addr → Int) (tok a : Addr) (v : Int) : Addr → Addr → Int :=
  fun t x => if t = tok ∧ x = a then v else bal t x

/-- The i128 ledger after moving `amount` from `source` to `dest` in token `tok`. -/
def applyTransferI (bal : Addr → Addr → Int) (tok source dest : Addr) (amount : Int) :
    Addr → Addr → Int :=
  let bal1 := setBalI bal tok source (bal tok source - amount)
  setBalI bal1 tok dest (bal1 tok dest + amount)

/-- Direct (non-try) token `transfer` invocation: a negative amount or an
insufficient sender balance makes the token contract trap, aborting the
whole transaction. -/
def transfer (bal : Addr → Addr → Int) (tok source dest : Addr) (amount : Int) :
    Except BorrowingError (Addr → Addr → Int) :=
  if amount < 0 then .error .Trap
  else if bal tok source < amount then .error .Trap
  else .ok (applyTransferI bal tok source dest amount)

/-- `get_next_loan_id`: increments the persistent counter and returns the
new id. -/
def getNextLoanId (s : BState) : BState × Nat :=
  let next_id := s.loanCounter + 1
  ({ s with loanCounter := next_id }, next_id)

/-- `create_loan`. -/
def createLoan (s : BState) (borrower : Addr) (principal : Int) (interest_rate : Nat)
    (due_date : Nat) (collateral_token : Addr) (collateral_amount : Int) :
    Except BorrowingError (BState × Nat) :=
  if !s.whitelisted collateral_token then .error .CollateralNotWhitelisted
  else if s.globalPause || s.vaultPause collateral_token then .error .Paused
  else
    let required_collateral :=
      ofU128 ((if toU128 principal * getCollateralRatioBps s < 2 ^ 128 then
                 toU128 principal * getCollateralRatioBps s / 10000
               else 0) % 2 ^ 128)
    if collateral_amount < required_collateral then .error .InsufficientCollateral
    else
      match transfer s.bal collateral_token borrower contractAddr collateral_amount with
      | .error e => .error e
      | .ok bal' =>
        let (s1, loan_id) := getNextLoanId s
        let loan : Loan := {
          borrower := borrower,
          principal := principal,
          interest_rate := interest_rate,
          due_date := due_date,
          amount_repaid := 0,
          collateral_amount := collateral_amount,
          collateral_token := collateral_token,
          is_active := true }
        .ok ({ s1 with
                loans := fun i => if i = loan_id then some loan else s1.loans i,
                bal := bal' },
              loan_id)

/-- `repay_loan`: no activity or amount checks; accumulates into
`amount_repaid` and, whenever the running total reaches the principal,
deactivates the loan and transfers the collateral to the borrower. -/
def repayLoan (s : BState) (loan_id : Nat) (amount : Int) : Except BorrowingError BState :=
  match s.loans loan_id with
  | none => .error .Trap
  | some loan =>
    if loan.amount_repaid + amount < I128_MIN ∨ I128_MAX < loan.amount_repaid + amount then
      .error .Trap
    else
      let repaid' := loan.amount_repaid + amount
      if loan.principal ≤ repaid' then
        match transfer s.bal loan.collateral_token contractAddr loan.borrower
            loan.collateral_amount with
        | .error e => .error e
        | .ok bal' =>
          let loan' := { loan with amount_repaid := repaid', is_active := false }
          .ok { s with
                 loans := fun i => if i = loan_id then some loan' else s.loans i,
                 bal := bal' }
      else
        let loan' := { loan with amount_repaid := repaid' }
        .ok { s with loans := fun i => if i = loan_id then some loan' else s.loans i }

/-- The health factor as the source computes it: u128 arithmetic on the
two's-complement casts, checked multiplication collapsing to 0 on
overflow, and a final u32 cast. -/
def healthFactorOf (collateral_amount debt : Int) : Nat :=
  if debt = 0 then 10000
  else
    let p := if toU128 collateral_amount * 10000 < 2 ^ 128 then
               toU128 collateral_amount * 10000
             else 0
    (p / toU128 debt) % 2 ^ 32

/-- `liquidate`. -/
def liquidate (s : BState) (liquidator : Addr) (loan_id : Nat) (liquidate_amount : Int) :
    Except BorrowingError BState :=
  match s.loans loan_id with
  | none => .error .LoanNotFound
  | some loan =>
    if !loan.is_active then .error .LoanNotActive
    else if loan.principal - loan.amount_repaid < I128_MIN ∨
            I128_MAX < loan.principal - loan.amount_repaid then .error .Trap
    else
      let debt := loan.principal - loan.amount_repaid
      if liquidate_amount ≤ 0 ∨ debt < liquidate_amount then .error .InvalidAmount
      else
        let health_factor := healthFactorOf loan.collateral_amount debt
        if getLiquidationThreshold s ≤ health_factor then .error .LoanHealthy
        else
          let bonus_amount :=
            ofU128 ((if toU128 liquidate_amount * getLiquidationBonus s < 2 ^ 128 then
                       toU128 liquidate_amount * getLiquidationBonus s / 10000
                     else 0) % 2 ^ 128)
          if liquidate_amount + bonus_amount < I128_MIN ∨
             I128_MAX < liquidate_amount + bonus_amount then .error .Trap
          else
            let liquidator_reward := liquidate_amount + bonus_amount
            if loan.collateral_amount < liquidator_reward then .error .InvalidAmount
            else
              match transfer s.bal loan.collateral_token contractAddr liquidator
                  liquidator_reward with
              | .error e => .error e
              | .ok bal' =>
                let repaid' := loan.amount_repaid + liquidate_amount
                if repaid' < I128_MIN ∨ I128_MAX < repaid' then .error .Trap
                else
                  let loan' := { loan with
                                  collateral_amount := loan.collateral_amount - liquidator_reward,
                                  amount_repaid := repaid',
                                  is_active := decide (repaid' < loan.principal) }
                  .ok { s with
                         loans := fun i => if i = loan_id then some loan' else s.loans i,
                         bal := bal' }

end Borrowing

set_option maxRecDepth 40000

/-! ## Claim C9: KYC approve/reject gating -/

/-- Concrete state for C9: admin is 1, user 2 has a submitted KYC that was
already rejected (and not approved). -/
def kycCounterState : Inh.InhState := {
  nextPlanId := 1, plans := fun _ => none, claims := fun _ => none,
  userPlans := fun _ => [], userClaimedPlans := fun _ => [], allClaimedPlans := [],
  deactivatedPlans := [], kyc := fun a =>
    if a = 2 then
      some { submitted := true, approved := false, rejected := true,
             submitted_at := 1, approved_at := 0, rejected_at := 3 }
    else none,
  triggers := fun _ => none, admin := some 1, bal := fun _ _ => 0 }

/-- C9 counterexample: `approve_kyc` succeeds on a user whose KYC status
already has `rejected == true` (the source never consults the opposite
flag), leaving both terminal flags set; the claim as stated says this
call must fail. -/
theorem claim9_kyc_opposite_flag_counterexample :
    (Inh.approveKyc kycCounterState 1 2 7).toOption.map
      (fun r => (r.1.kyc 2).map (fun st => (st.approved, st.rejected)))
      = some (some (true, true)) := by
  decide

/-- The state after a successful `approve_kyc` for `user` with prior status
`status`. -/
def kycApprovedState (s : Inh.InhState) (user : Addr) (status : Inh.KycStatus)
    (now : Nat) : Inh.InhState :=
  { s with kyc := fun a =>
      if a = user then some { status with approved := true, approved_at := now }
      else s.kyc a }

/-- The state after a successful `reject_kyc` for `user` with prior status
`status`. -/
def kycRejectedState (s : Inh.InhState) (user : Addr) (status : Inh.KycStatus)
    (now : Nat) : Inh.InhState :=
  { s with kyc := fun a =>
      if a = user then some { status with rejected := true, rejected_at := now }
      else s.kyc a }

/-- C9 (amended): `approve_kyc` and `reject_kyc` each require prior
submission and their OWN terminal flag unset: a second approve fails
`KycAlreadyApproved` and a second reject fails `KycAlreadyRejected`, but
each call ignores the opposite flag (an approve succeeds on a rejected
user and vice versa). -/
theorem claim9_kyc_own_flag_terminal (s : Inh.InhState) (admin user : Addr) (now : Nat)
    (hadmin : s.admin = some admin) :
    (s.kyc user = none →
       Inh.approveKyc s admin user now = .error .KycNotSubmitted ∧
       Inh.rejectKyc s admin user now = .error .KycNotSubmitted) ∧
    (∀ status, s.kyc user = some status → status.submitted = false →
       Inh.approveKyc s admin user now = .error .KycNotSubmitted ∧
       Inh.rejectKyc s admin user now = .error .KycNotSubmitted) ∧
    (∀ status, s.kyc user = some status → status.submitted = true →
       (status.approved = true →
          Inh.approveKyc s admin user now = .error .KycAlreadyApproved) ∧
       (status.approved = false →
          Inh.approveKyc s admin user now =
            .ok (kycApprovedState s user status now, [.KycApproved user now])) ∧
       (status.rejected = true →
          Inh.rejectKyc s admin user now = .error .KycAlreadyRejected) ∧
       (status.rejected = false →
          Inh.rejectKyc s admin user now =
            .ok (kycRejectedState s user status now, [.KycRejected user now]))) := by
  refine ⟨fun hnone => ?_, fun status hst hsub => ?_, fun status hst hsub => ?_⟩
  · simp [Inh.approveKyc, Inh.rejectKyc, Inh.requireAdmin, hadmin, hnone]
  · simp [Inh.approveKyc, Inh.rejectKyc, Inh.requireAdmin, hadmin, hst, hsub]
  · refine ⟨fun h => ?_, fun h => ?_, fun h => ?_, fun h => ?_⟩ <;>
      simp [Inh.approveKyc, Inh.rejectKyc, Inh.requireAdmin, kycApprovedState,
            kycRejectedState, hadmin, hst, hsub, h]

/-- Concrete state for the C9 witness: user 2 already approved, user 3
already rejected, user 4 submitted with neither flag. -/
def kycWitnessState : Inh.InhState := { kycCounterState with
  kyc := fun a =>
    if a = 2 then
      some { submitted := true, approved := true, rejected := false,
             submitted_at := 1, approved_at := 2, rejected_at := 0 }
    else if a = 3 then
      some { submitted := true, approved := false, rejected := true,
             submitted_at := 1, approved_at := 0, rejected_at := 2 }
    else none }

/-- C9 witness: at a concrete state, a second approve fails
`KycAlreadyApproved` and a second reject fails `KycAlreadyRejected`. -/
theorem claim9_kyc_own_flag_terminal_witness :
    Inh.approveKyc kycWitnessState 1 2 7 = .error .KycAlreadyApproved ∧
    Inh.rejectKyc kycWitnessState 1 3 7 = .error .KycAlreadyRejected := by
  constructor
  · exact (((claim9_kyc_own_flag_terminal kycWitnessState 1 2 7 rfl).2.2
      _ rfl rfl).1 rfl)
  · exact (((claim9_kyc_own_flag_terminal kycWitnessState 1 3 7 rfl).2.2
      _ rfl rfl).2.2.1 rfl)

/-! ## Claim C10: borrowing-vault `repay_loan` has no guards -/

/-- Post-state of `repay_loan` when the running total stays below the
principal: only `amount_repaid` changes. -/
def repayBelowState (s : Borrowing.BState) (loan_id : Nat) (loan : Borrowing.Loan)
    (amount : Int) : Borrowing.BState :=
  { s with loans := fun i =>
      if i = loan_id then some { loan with amount_repaid := loan.amount_repaid + amount }
      else s.loans i }

/-- Post-state of `repay_loan` when the running total reaches the
principal: the loan is deactivated and the collateral is transferred to
the borrower. -/
def repayPayoutState (s : Borrowing.BState) (loan_id : Nat) (loan : Borrowing.Loan)
    (amount : Int) : Borrowing.BState :=
  { s with
     loans := fun i =>
       if i = loan_id then
         some { loan with amount_repaid := loan.amount_repaid + amount, is_active := false }
       else s.loans i,
     bal := Borrowing.applyTransferI s.bal loan.collateral_token Borrowing.contractAddr
       loan.borrower loan.collateral_amount }

/-- C10: `repay_loan` checks neither the loan's activity flag nor the sign
of `amount`.  For any stored loan (active or not) it adds `amount` to
`amount_repaid` (negative amounts decrease it); whenever the running total
reaches the principal it transfers the collateral to the borrower — even
if the loan was already repaid and deactivated, so repeated calls pay the
collateral out again each time. -/
theorem claim10_repay_loan_no_guards (s : Borrowing.BState) (loan_id : Nat)
    (loan : Borrowing.Loan) (amount : Int)
    (hl : s.loans loan_id = some loan)
    (hlo : Borrowing.I128_MIN ≤ loan.amount_repaid + amount)
    (hhi : loan.amount_repaid + amount ≤ Borrowing.I128_MAX) :
    (loan.amount_repaid + amount < loan.principal →
       Borrowing.repayLoan s loan_id amount = .ok (repayBelowState s loan_id loan amount)) ∧
    (loan.principal ≤ loan.amount_repaid + amount →
     0 ≤ loan.collateral_amount →
     loan.collateral_amount ≤ s.bal loan.collateral_token Borrowing.contractAddr →
       Borrowing.repayLoan s loan_id amount = .ok (repayPayoutState s loan_id loan amount)) := by
  constructor
  · intro hbelow
    simp only [Borrowing.repayLoan, hl]
    rw [if_neg (by omega), if_neg (by omega)]
    rfl
  · intro hreach hcoll hbal
    simp only [Borrowing.repayLoan, hl]
    rw [if_neg (by omega), if_pos hreach]
    simp only [Borrowing.transfer]
    rw [if_neg (by omega), if_neg (by omega)]
    rfl

/-- Concrete loan for the C10 witness: already fully repaid and inactive. -/
def c10Loan : Borrowing.Loan := {
  borrower := 4, principal := 1000, interest_rate := 500, due_date := 99999,
  amount_repaid := 1000, collateral_amount := 1200, collateral_token := 60,
  is_active := false }

/-- Concrete state for the C10 witness: the vault still holds 5000 of the
collateral token. -/
def c10State : Borrowing.BState := {
  admin := some 1, collateral_ratio_bps := some 12000,
  liquidation_threshold_bps := some 13000, liquidation_bonus_bps := some 500,
  whitelisted := fun t => t = 60, globalPause := false, vaultPause := fun _ => false,
  loanCounter := 1, loans := fun i => if i = 1 then some c10Loan else none,
  bal := fun t a => if t = 60 ∧ a = Borrowing.contractAddr then 5000 else 0 }

/-- C10 witness: two consecutive `repay_loan(1, 0)` calls on the
already-repaid inactive loan both succeed and each transfers the 1200
collateral to the borrower again, leaving the borrower with 2400. -/
theorem claim10_repay_loan_no_guards_witness :
    Borrowing.repayLoan c10State 1 0 = .ok (repayPayoutState c10State 1 c10Loan 0) ∧
    Borrowing.repayLoan (repayPayoutState c10State 1 c10Loan 0) 1 0 =
      .ok (repayPayoutState (repayPayoutState c10State 1 c10Loan 0) 1 c10Loan 0) ∧
    (repayPayoutState (repayPayoutState c10State 1 c10Loan 0) 1 c10Loan 0).bal 60 4 = 2400 := by
  refine ⟨?_, ?_, by decide⟩
  · exact (claim10_repay_loan_no_guards c10State 1 c10Loan 0 (by decide) (by decide)
      (by decide)).2 (by decide) (by decide) (by decide)
  · exact (claim10_repay_loan_no_guards (repayPayoutState c10State 1 c10Loan 0) 1 c10Loan 0
      (by decide) (by decide) (by decide)).2 (by decide) (by decide) (by decide)

/-! ## Claim C8: borrowing-vault `liquidate` -/

/-- Loan for the C8 counterexample: debt 1, collateral 429497, so the
u128 health quotient is 4294970000, which truncates to 2704 as u32. -/
def c8TruncLoan : Borrowing.Loan := {
  borrower := 4, principal := 1, interest_rate := 500, due_date := 99999,
  amount_repaid := 0, collateral_amount := 429497, collateral_token := 60,
  is_active := true }

/-- State for the C8 counterexample (threshold 13000, bonus 500). -/
def c8TruncState : Borrowing.BState := {
  admin := some 1, collateral_ratio_bps := some 12000,
  liquidation_threshold_bps := some 13000, liquidation_bonus_bps := some 500,
  whitelisted := fun t => t = 60, globalPause := false, vaultPause := fun _ => false,
  loanCounter := 1, loans := fun i => if i = 1 then some c8TruncLoan else none,
  bal := fun t a => if t = 60 ∧ a = Borrowing.contractAddr then 429497 else 0 }

/-- C8 counterexample: `liquidate` succeeds on a loan whose health factor
by the claim's formula, `collateral_amount * 10000 / debt = 4294970000`,
is far above the 13000 threshold — the source casts the u128 quotient to
u32, truncating it to 2704.  The claim as stated says the call must
require the formula's value to be strictly below the threshold. -/
theorem claim8_liquidate_truncation_counterexample :
    (Borrowing.liquidate c8TruncState 5 1 1).toOption.map
      (fun s' => (s'.loans 1).map (fun l => l.amount_repaid)) = some (some 1) ∧
    (Borrowing.getLiquidationThreshold c8TruncState : Int) ≤
      c8TruncLoan.collateral_amount * 10000 /
        (c8TruncLoan.principal - c8TruncLoan.amount_repaid) := by
  constructor
  · decide
  · decide

/-- Post-state of a successful `liquidate`. -/
def liquidateSuccessState (s : Borrowing.BState) (liquidator : Addr) (loan_id : Nat)
    (loan : Borrowing.Loan) (la reward : Int) : Borrowing.BState :=
  { s with
     loans := fun i =>
       if i = loan_id then
         some { loan with
                 collateral_amount := loan.collateral_amount - reward,
                 amount_repaid := loan.amount_repaid + la,
                 is_active := decide (loan.amount_repaid + la < loan.principal) }
       else s.loans i,
     bal := Borrowing.applyTransferI s.bal loan.collateral_token Borrowing.contractAddr
       liquidator reward }

/-- C8 (amended): as claimed, but with the health factor computed as the
source does — the u32 truncation `healthFactorOf` of the u128 quotient —
in place of the exact `collateral·10000/debt`.  `liquidate` requires an
active loan, `0 < liquidate_amount ≤ debt`, truncated health factor
strictly below the threshold, and reward ≤ collateral; on success it
transfers `reward = la + la·bonus_bps/10000` to the liquidator, deducts
it from the collateral, adds `la` to `amount_repaid`, and deactivates the
loan exactly when the new `amount_repaid` reaches the principal.  The
concrete scenario (principal 1000, collateral 1200, threshold 13000,
bonus 500, liquidate 500) yields `amount_repaid = 500`,
`collateral_amount = 675`, and post health factor 13500. -/
theorem claim8_liquidate_amended (s : Borrowing.BState) (liquidator : Addr) (loan_id : Nat)
    (loan : Borrowing.Loan) (la : Int)
    (hl : s.loans loan_id = some loan)
    (hd1 : Borrowing.I128_MIN ≤ loan.principal - loan.amount_repaid)
    (hd2 : loan.principal - loan.amount_repaid ≤ Borrowing.I128_MAX) :
    (loan.is_active = false →
       Borrowing.liquidate s liquidator loan_id la = .error .LoanNotActive) ∧
    (loan.is_active = true → la ≤ 0 ∨ loan.principal - loan.amount_repaid < la →
       Borrowing.liquidate s liquidator loan_id la = .error .InvalidAmount) ∧
    (loan.is_active = true → 0 < la → la ≤ loan.principal - loan.amount_repaid →
     Borrowing.getLiquidationThreshold s ≤
       Borrowing.healthFactorOf loan.collateral_amount (loan.principal - loan.amount_repaid) →
       Borrowing.liquidate s liquidator loan_id la = .error .LoanHealthy) ∧
    (loan.is_active = true → 0 < la → la ≤ loan.principal - loan.amount_repaid →
     Borrowing.healthFactorOf loan.collateral_amount (loan.principal - loan.amount_repaid) <
       Borrowing.getLiquidationThreshold s →
     la.toNat * Borrowing.getLiquidationBonus s < 2 ^ 128 →
     la.toNat * Borrowing.getLiquidationBonus s / 10000 < 2 ^ 127 →
     la + ((la.toNat * Borrowing.getLiquidationBonus s / 10000 : Nat) : Int) ≤
       Borrowing.I128_MAX →
     (loan.collateral_amount <
        la + ((la.toNat * Borrowing.getLiquidationBonus s / 10000 : Nat) : Int) →
        Borrowing.liquidate s liquidator loan_id la = .error .InvalidAmount) ∧
     (la + ((la.toNat * Borrowing.getLiquidationBonus s / 10000 : Nat) : Int) ≤
        loan.collateral_amount →
      la + ((la.toNat * Borrowing.getLiquidationBonus s / 10000 : Nat) : Int) ≤
        s.bal loan.collateral_token Borrowing.contractAddr →
      Borrowing.I128_MIN ≤ loan.amount_repaid + la →
      loan.amount_repaid + la ≤ Borrowing.I128_MAX →
        Borrowing.liquidate s liquidator loan_id la =
          .ok (liquidateSuccessState s liquidator loan_id loan la
                (la + ((la.toNat * Borrowing.getLiquidationBonus s / 10000 : Nat) : Int))))) := by
  have hcast : ∀ x : Int, 0 < x → x ≤ Borrowing.I128_MAX → Borrowing.toU128 x = x.toNat := by
    intro x hx hmax
    simp only [Borrowing.toU128, Borrowing.I128_MAX] at *
    rw [Int.emod_eq_of_lt (by omega) (by omega)]
  have hminneg : Borrowing.I128_MIN ≤ 0 := by simp [Borrowing.I128_MIN]
  refine ⟨fun hact => ?_, fun hact hbad => ?_, fun hact hpos hle hhealthy => ?_,
          fun hact hpos hle hunhealthy hfit hq hrw => ?_⟩
  · simp [Borrowing.liquidate, hl, hact]
  · simp only [Borrowing.liquidate, hl, hact]
    rw [if_neg (by simp), if_neg (by omega), if_pos (by omega)]
  · simp only [Borrowing.liquidate, hl, hact]
    rw [if_neg (by simp), if_neg (by omega), if_neg (by omega), if_pos (by omega)]
  have hbexp : Borrowing.ofU128
      ((if Borrowing.toU128 la * Borrowing.getLiquidationBonus s < 2 ^ 128 then
          Borrowing.toU128 la * Borrowing.getLiquidationBonus s / 10000
        else 0) % 2 ^ 128) =
      ((la.toNat * Borrowing.getLiquidationBonus s / 10000 : Nat) : Int) := by
    rw [hcast la hpos (by omega), if_pos hfit, Nat.mod_eq_of_lt (by omega)]
    simp only [Borrowing.ofU128]
    rw [if_pos hq]
  refine ⟨fun hover => ?_, fun hok hbal hr1 hr2 => ?_⟩
  · simp only [Borrowing.liquidate, hl, hact, hbexp]
    rw [if_neg (by simp), if_neg (by omega), if_neg (by omega), if_neg (by omega),
        if_neg (by omega), if_pos (by omega)]
  · have htr : Borrowing.transfer s.bal loan.collateral_token Borrowing.contractAddr liquidator
        (la + ((la.toNat * Borrowing.getLiquidationBonus s / 10000 : Nat) : Int)) =
        .ok (Borrowing.applyTransferI s.bal loan.collateral_token Borrowing.contractAddr
          liquidator (la + ((la.toNat * Borrowing.getLiquidationBonus s / 10000 : Nat) : Int))) := by
      simp only [Borrowing.transfer]
      rw [if_neg (by omega), if_neg (by omega)]
    simp only [Borrowing.liquidate, hl, hact, hbexp]
    rw [if_neg (by simp), if_neg (by omega), if_neg (by omega), if_neg (by omega),
        if_neg (by omega), if_neg (by omega), htr]
    split
    · simp_all
    · rename_i bal' heq
      injection heq with heq'
      subst heq'
      rw [if_neg (by omega)]
      simp only [liquidateSuccessState]

/-- Loan for the C8 witness: the spec's partial-liquidation scenario. -/
def c8ScenLoan : Borrowing.Loan := {
  borrower := 4, principal := 1000, interest_rate := 500, due_date := 99999,
  amount_repaid := 0, collateral_amount := 1200, collateral_token := 60,
  is_active := true }

/-- State for the C8 witness (ratio 12000, threshold 13000, bonus 500). -/
def c8ScenState : Borrowing.BState := {
  admin := some 1, collateral_ratio_bps := some 12000,
  liquidation_threshold_bps := some 13000, liquidation_bonus_bps := some 500,
  whitelisted := fun t => t = 60, globalPause := false, vaultPause := fun _ => false,
  loanCounter := 1, loans := fun i => if i = 1 then some c8ScenLoan else none,
  bal := fun t a => if t = 60 ∧ a = Borrowing.contractAddr then 1200 else 0 }

/-- C8 witness: liquidating 500 of the scenario loan succeeds with reward
525, leaving `amount_repaid = 500`, `collateral_amount = 675` and a still
active loan, and the resulting health factor is 13500. -/
theorem claim8_liquidate_amended_witness :
    Borrowing.liquidate c8ScenState 5 1 500 =
      .ok (liquidateSuccessState c8ScenState 5 1 c8ScenLoan 500 525) ∧
    (liquidateSuccessState c8ScenState 5 1 c8ScenLoan 500 525).loans 1 =
      some { c8ScenLoan with
              collateral_amount := 675, amount_repaid := 500, is_active := true } ∧
    Borrowing.healthFactorOf 675 500 = 13500 := by
  refine ⟨?_, by decide, by decide⟩
  exact ((claim8_liquidate_amended c8ScenState 5 1 c8ScenLoan 500 rfl (by decide)
      (by decide)).2.2.2 rfl (by decide) (by decide) (by decide) (by decide) (by decide)
      (by decide)).2 (by decide) (by decide) (by decide) (by decide)

/-! ## Claim C7: lending-pool deposit share math -/

/-- Post-state of the genesis deposit: `amount` shares are minted in
total, `MINIMUM_LIQUIDITY = 1000` of them stay locked in `total_shares`
without being credited to anyone, and the depositor receives the rest. -/
def genesisDepositState (s : Lending.LState) (depositor : Addr) (amount : Nat) :
    Lending.LState :=
  { s with
     pool := { s.pool with
                total_deposits := s.pool.total_deposits + amount,
                total_shares := s.pool.total_shares + 1000 + (amount - 1000) },
     shares := fun a =>
       if a = depositor then s.shares depositor + (amount - 1000) else s.shares a,
     bal := Inh.applyTransfer s.bal s.token depositor Lending.contractAddr amount }

/-- Post-state of a subsequent deposit minting `sh` shares. -/
def subsequentDepositState (s : Lending.LState) (depositor : Addr) (amount sh : Nat) :
    Lending.LState :=
  { s with
     pool := { s.pool with
                total_deposits := s.pool.total_deposits + amount,
                total_shares := s.pool.total_shares + sh },
     shares := fun a => if a = depositor then s.shares depositor + sh else s.shares a,
     bal := Inh.applyTransfer s.bal s.token depositor Lending.contractAddr amount }

/-- C7: on the genesis deposit (`total_shares == 0`) a deposit of `amount`
mints `amount` shares in total, locks 1000 of them in `total_shares` with
no owner, credits the depositor `amount - 1000`, and rejects any
`amount ≤ 1000` with `InvalidAmount`; on a subsequent deposit the
depositor receives `amount·total_shares/total_deposits` shares (u128
intermediate). -/
theorem claim7_deposit_share_math (s : Lending.LState) (depositor : Addr) (amount : Nat)
    (hadmin : s.admin.isNone = false)
    (hbal : amount ≤ s.bal s.token depositor) :
    (s.pool.total_shares = 0 →
       (amount ≤ 1000 → Lending.deposit s depositor amount = .error .InvalidAmount) ∧
       (1000 < amount → s.pool.total_deposits + amount < 2 ^ 64 → amount < 2 ^ 64 →
        s.shares depositor + (amount - 1000) < 2 ^ 64 →
          Lending.deposit s depositor amount =
            .ok (genesisDepositState s depositor amount, amount - 1000) ∧
          (genesisDepositState s depositor amount).pool.total_shares = amount)) ∧
    (s.pool.total_shares ≠ 0 → s.pool.total_deposits ≠ 0 →
     amount ≠ 0 →
     amount * s.pool.total_shares / s.pool.total_deposits < 2 ^ 64 →
     0 < amount * s.pool.total_shares / s.pool.total_deposits →
     s.pool.total_deposits + amount < 2 ^ 64 →
     s.pool.total_shares + amount * s.pool.total_shares / s.pool.total_deposits < 2 ^ 64 →
     s.shares depositor + amount * s.pool.total_shares / s.pool.total_deposits < 2 ^ 64 →
       Lending.deposit s depositor amount =
         .ok (subsequentDepositState s depositor amount
                (amount * s.pool.total_shares / s.pool.total_deposits),
              amount * s.pool.total_shares / s.pool.total_deposits)) := by
  have htr : Lending.transfer s.bal s.token depositor Lending.contractAddr amount =
      .ok (Inh.applyTransfer s.bal s.token depositor Lending.contractAddr amount) := by
    simp only [Lending.transfer, Inh.tryTransfer]
    rw [if_pos hbal]
  refine ⟨fun hS => ⟨fun hsmall => ?_, fun hbig h1 h2 h3 => ⟨?_, ?_⟩⟩,
          fun hS hD h0 hlt hpos h1 h2 h3 => ?_⟩
  · by_cases h0 : amount = 0
    · simp [Lending.deposit, hadmin, h0]
    · simp [Lending.deposit, hadmin, h0, htr, Lending.sharesForDeposit, hS,
            Lending.MINIMUM_LIQUIDITY, hsmall]
  · simp only [Lending.deposit, hadmin, Bool.false_eq_true, if_false,
        show ¬(amount = 0) by omega, if_neg (show ¬(amount = 0) by omega), htr,
        Lending.sharesForDeposit, hS, Lending.MINIMUM_LIQUIDITY, genesisDepositState]
    simp [show ¬(amount ≤ 1000) by omega, show ¬(amount - 1000 = 0) by omega]
    rw [if_neg (by omega), if_neg (by omega), if_neg (by omega)]
  · simp only [genesisDepositState, hS]
    omega
  · simp only [Lending.deposit, hadmin, Bool.false_eq_true, if_false, h0, if_neg h0, htr,
        Lending.sharesForDeposit, subsequentDepositState]
    have hmod : amount * s.pool.total_shares / s.pool.total_deposits % 18446744073709551616 =
        amount * s.pool.total_shares / s.pool.total_deposits := Nat.mod_eq_of_lt (by omega)
    simp [hS, hD, hmod,
          show ¬(amount * s.pool.total_shares / s.pool.total_deposits = 0) by omega]
    rw [if_neg (by omega), if_neg (by omega), if_neg (by omega)]

/-- Empty pool for the C7 witness. -/
def c7GenesisState : Lending.LState := {
  admin := some 1, token := 50,
  pool := {
    total_deposits := 0, total_shares := 0, total_borrowed := 0,
    base_rate_bps := 100, multiplier_bps := 3000, utilization_cap_bps := 8000,
    retained_yield := 0, bad_debt_reserve := 0 },
  shares := fun _ => 0, loanOf := fun _ => none, loanById := fun _ => none, nextLoanId := 1,
  collateral_ratio_bps := 15000, whitelisted := fun _ => false,
  bal := fun t a => if t = 50 ∧ a = 7 then 100000 else 0 }

/-- Pool with 5000 deposits and 5000 shares for the C7 witness. -/
def c7SubState : Lending.LState := { c7GenesisState with
  pool := { c7GenesisState.pool with total_deposits := 5000, total_shares := 5000 } }

/-- C7 witness: a genesis deposit of 5000 credits 4000 shares (1000 stay
locked), a genesis deposit of 1000 is rejected `InvalidAmount`, and a
subsequent deposit of 2000 into a 5000/5000 pool mints
`2000·5000/5000 = 2000` shares. -/
theorem claim7_deposit_share_math_witness :
    Lending.deposit c7GenesisState 7 5000 =
      .ok (genesisDepositState c7GenesisState 7 5000, 4000) ∧
    Lending.deposit c7GenesisState 7 1000 = .error .InvalidAmount ∧
    Lending.deposit c7SubState 7 2000 =
      .ok (subsequentDepositState c7SubState 7 2000 2000, 2000) := by
  refine ⟨?_, ?_, ?_⟩
  · exact (((claim7_deposit_share_math c7GenesisState 7 5000 rfl (by decide)).1 rfl).2
      (by decide) (by decide) (by decide) (by decide)).1
  · exact ((claim7_deposit_share_math c7GenesisState 7 1000 rfl (by decide)).1 rfl).1
      (by decide)
  · exact (claim7_deposit_share_math c7SubState 7 2000 rfl (by decide)).2
      (by decide) (by decide) (by decide) (by decide) (by decide) (by decide)
      (by decide) (by decide)

/-! ## Claim C6: borrow utilization cap and origination rate -/

/-- A failed lending-pool `transfer` invocation always reports
`TransferFailed`. -/
theorem ltransfer_error_eq (bal : Addr → Addr → Nat) (tok source dest : Addr)
    (amount : Nat) (e : Lending.LendingError)
    (h : Lending.transfer bal tok source dest amount = .error e) :
    e = .TransferFailed := by
  simp only [Lending.transfer, Inh.tryTransfer] at h
  split at h <;> simp_all

/-- The loan record stored by a successful `borrow`. -/
def borrowLoan (s : Lending.LState) (borrower : Addr) (amount : Nat) (ctoken : Addr)
    (collateral duration now : Nat) : Lending.LoanRecord := {
  loan_id := s.nextLoanId, borrower := borrower, principal := amount,
  collateral_amount := collateral, collateral_token := ctoken, borrow_time := now,
  due_date := now + duration,
  interest_rate_bps := Lending.calculateDynamicRate s.pool.base_rate_bps
    s.pool.multiplier_bps
    (Lending.getUtilizationBps (s.pool.total_borrowed + amount) s.pool.total_deposits) }

/-- Post-state of a successful `borrow`. -/
def borrowSuccessState (s : Lending.LState) (borrower : Addr) (amount : Nat) (ctoken : Addr)
    (collateral duration now : Nat) : Lending.LState :=
  { s with
     pool := { s.pool with total_borrowed := s.pool.total_borrowed + amount },
     nextLoanId := s.nextLoanId + 1,
     loanOf := fun a =>
       if a = borrower then some (borrowLoan s borrower amount ctoken collateral duration now)
       else s.loanOf a,
     loanById := fun i =>
       if i = s.nextLoanId then
         some (borrowLoan s borrower amount ctoken collateral duration now)
       else s.loanById i,
     bal := Inh.applyTransfer
       (Inh.applyTransfer s.bal ctoken borrower Lending.contractAddr collateral)
       s.token Lending.contractAddr borrower amount }

/-- C6: with every earlier precondition satisfied, `borrow` fails
`UtilizationCapExceeded` exactly when the post-increment utilization
`(total_borrowed + amount)·10000/total_deposits` exceeds
`utilization_cap_bps`; on success the stored loan's rate is
`base_rate_bps` saturating-plus (post-increment utilization)
`· multiplier_bps / 10000`. -/
theorem claim6_borrow_cap_and_rate (s : Lending.LState) (borrower : Addr) (amount : Nat)
    (ctoken : Addr) (collateral duration now : Nat)
    (hadmin : s.admin.isNone = false)
    (h0 : amount ≠ 0) (hc0 : collateral ≠ 0)
    (hwl : s.whitelisted ctoken = true)
    (hnoloan : s.loanOf borrower = none)
    (hcoll : (amount * s.collateral_ratio_bps / 10000) % 2 ^ 64 ≤ collateral)
    (hbd : s.pool.total_borrowed ≤ s.pool.total_deposits)
    (hD : s.pool.total_deposits ≠ 0)
    (hDlt : s.pool.total_deposits < 2 ^ 64)
    (havail : amount ≤ s.pool.total_deposits - s.pool.total_borrowed) :
    (Lending.borrow s borrower amount ctoken collateral duration now =
        .error .UtilizationCapExceeded ↔
      s.pool.utilization_cap_bps <
        (s.pool.total_borrowed + amount) * 10000 / s.pool.total_deposits) ∧
    ((s.pool.total_borrowed + amount) * 10000 / s.pool.total_deposits ≤
        s.pool.utilization_cap_bps →
     collateral ≤ s.bal ctoken borrower →
     amount ≤ Inh.applyTransfer s.bal ctoken borrower Lending.contractAddr collateral
       s.token Lending.contractAddr →
     now + duration < 2 ^ 64 →
       Lending.borrow s borrower amount ctoken collateral duration now =
         .ok (borrowSuccessState s borrower amount ctoken collateral duration now,
              s.nextLoanId)) ∧
    (s.pool.multiplier_bps < 2 ^ 32 →
      (borrowLoan s borrower amount ctoken collateral duration now).interest_rate_bps =
        min (s.pool.base_rate_bps +
              (s.pool.total_borrowed + amount) * 10000 / s.pool.total_deposits *
                s.pool.multiplier_bps / 10000)
            (2 ^ 32 - 1)) := by
  have hDpos : 0 < s.pool.total_deposits := Nat.pos_of_ne_zero hD
  have hle10k : (s.pool.total_borrowed + amount) * 10000 / s.pool.total_deposits ≤ 10000 := by
    calc (s.pool.total_borrowed + amount) * 10000 / s.pool.total_deposits
        ≤ s.pool.total_deposits * 10000 / s.pool.total_deposits :=
          Nat.div_le_div_right (Nat.mul_le_mul_right _ (by omega))
      _ = 10000 := Nat.mul_div_cancel_left 10000 hDpos
  have hmodU : Lending.getUtilizationBps (s.pool.total_borrowed + amount)
      s.pool.total_deposits =
      (s.pool.total_borrowed + amount) * 10000 / s.pool.total_deposits := by
    simp only [Lending.getUtilizationBps, if_neg hD]
    exact Nat.mod_eq_of_lt (by omega)
  refine ⟨?_, fun hcap hbal1 hbal2 hdur => ?_, fun hmult => ?_⟩
  · by_cases hover : s.pool.utilization_cap_bps <
        (s.pool.total_borrowed + amount) * 10000 / s.pool.total_deposits
    · simp only [Lending.borrow, hadmin, Bool.false_eq_true, if_false, h0, hc0, hwl,
        hnoloan, hmodU]
      simp only [decide_eq_true_eq, Option.isSome_none, Bool.false_eq_true, if_false]
      rw [if_neg (by simp [h0, hc0]), if_neg (by simp), if_neg (by omega),
          if_neg (by omega), if_neg (by omega), if_pos hover]
      simp [hover]
    · simp only [iff_false_intro hover, iff_false]
      simp only [Lending.borrow, hadmin, Bool.false_eq_true, if_false, hmodU]
      rw [if_neg (by simp [h0, hc0]), if_neg (by simp [hwl]), if_neg (by simp [hnoloan]),
          if_neg (by omega), if_neg (by omega), if_neg (by omega), if_neg hover]
      cases h1 : Lending.transfer s.bal ctoken borrower Lending.contractAddr collateral with
      | error e =>
        have he := ltransfer_error_eq _ _ _ _ _ _ h1
        simp [h1, he]
      | ok bal1 =>
        simp only [h1]
        by_cases hdur : 2 ^ 64 ≤ now + duration
        · rw [if_pos (by omega)]
          simp
        · rw [if_neg (by omega)]
          cases h2 : Lending.transfer bal1 s.token Lending.contractAddr borrower amount with
          | error e =>
            have he := ltransfer_error_eq _ _ _ _ _ _ h2
            simp [h2, he]
          | ok bal2 => simp [h2]
  · have htr1 : Lending.transfer s.bal ctoken borrower Lending.contractAddr collateral =
        .ok (Inh.applyTransfer s.bal ctoken borrower Lending.contractAddr collateral) := by
      simp only [Lending.transfer, Inh.tryTransfer]
      rw [if_pos hbal1]
    have htr2 : Lending.transfer
        (Inh.applyTransfer s.bal ctoken borrower Lending.contractAddr collateral)
        s.token Lending.contractAddr borrower amount =
        .ok (Inh.applyTransfer
          (Inh.applyTransfer s.bal ctoken borrower Lending.contractAddr collateral)
          s.token Lending.contractAddr borrower amount) := by
      simp only [Lending.transfer, Inh.tryTransfer]
      rw [if_pos hbal2]
    simp only [Lending.borrow, hadmin, Bool.false_eq_true, if_false, hmodU]
    rw [if_neg (by simp [h0, hc0]), if_neg (by simp [hwl]), if_neg (by simp [hnoloan]),
        if_neg (by omega), if_neg (by omega), if_neg (by omega), if_neg (by omega)]
    simp only [htr1]
    rw [if_neg (by omega)]
    simp only [htr2, borrowSuccessState, borrowLoan, hmodU]
  · simp only [borrowLoan, Lending.calculateDynamicRate, hmodU]
    rw [Nat.mod_eq_of_lt (by
      calc (s.pool.total_borrowed + amount) * 10000 / s.pool.total_deposits *
            s.pool.multiplier_bps / 10000
          ≤ 10000 * s.pool.multiplier_bps / 10000 :=
            Nat.div_le_div_right (Nat.mul_le_mul_right _ hle10k)
        _ = s.pool.multiplier_bps := by omega
        _ < 2 ^ 32 := hmult)]

/-- Pool for the C6 witness: cap 8000 bp, 10000 deposited, base rate 100,
multiplier 3000, nothing borrowed. -/
def c6State : Lending.LState := {
  admin := some 1, token := 50,
  pool := {
    total_deposits := 10000, total_shares := 10000, total_borrowed := 0,
    base_rate_bps := 100, multiplier_bps := 3000, utilization_cap_bps := 8000,
    retained_yield := 0, bad_debt_reserve := 0 },
  shares := fun _ => 0, loanOf := fun _ => none, loanById := fun _ => none, nextLoanId := 1,
  collateral_ratio_bps := 15000, whitelisted := fun t => t = 60,
  bal := fun t a =>
    if t = 60 ∧ a = 3 then 100000
    else if t = 50 ∧ a = Lending.contractAddr then 10000 else 0 }

/-- C6 witness: borrowing 8001 of the 10000-deposit pool with cap 8000
fails `UtilizationCapExceeded`, borrowing 8000 succeeds, and the stored
loan's rate is `100 + 8000·3000/10000 = 2500` bp. -/
theorem claim6_borrow_cap_and_rate_witness :
    Lending.borrow c6State 3 8001 60 100000 1000 0 = .error .UtilizationCapExceeded ∧
    Lending.borrow c6State 3 8000 60 100000 1000 0 =
      .ok (borrowSuccessState c6State 3 8000 60 100000 1000 0, 1) ∧
    (borrowLoan c6State 3 8000 60 100000 1000 0).interest_rate_bps = 2500 := by
  refine ⟨?_, ?_, ?_⟩
  · exact (claim6_borrow_cap_and_rate c6State 3 8001 60 100000 1000 0 rfl (by decide)
      (by decide) (by decide) rfl (by decide) (by decide) (by decide) (by decide)
      (by decide)).1.mpr (by decide)
  · exact ((claim6_borrow_cap_and_rate c6State 3 8000 60 100000 1000 0 rfl (by decide)
      (by decide) (by decide) rfl (by decide) (by decide) (by decide) (by decide)
      (by decide)).2.1 (by decide) (by decide) (by decide) (by decide))
  · exact ((claim6_borrow_cap_and_rate c6State 3 8000 60 100000 1000 0 rfl (by decide)
      (by decide) (by decide) rfl (by decide) (by decide) (by decide) (by decide)
      (by decide)).2.2 (by decide)).trans (by decide)

/-! ## Claim C5: repay interest computation and yield split -/

/-- Post-state of a successful `repay` with interest `interest`: principal
leaves `total_borrowed`, 10% of the interest goes to the protocol buckets
(half of it to the bad-debt reserve), the rest accrues to depositors. -/
def repaySuccessState (s : Lending.LState) (borrower : Addr) (loan : Lending.LoanRecord)
    (interest : Nat) : Lending.LState :=
  { s with
     pool := { s.pool with
                total_borrowed := s.pool.total_borrowed - loan.principal,
                total_deposits :=
                  s.pool.total_deposits + (interest - interest * 1000 / 10000),
                retained_yield :=
                  s.pool.retained_yield +
                    (interest * 1000 / 10000 - interest * 1000 / 10000 * 5000 / 10000),
                bad_debt_reserve :=
                  s.pool.bad_debt_reserve + interest * 1000 / 10000 * 5000 / 10000 },
     loanOf := fun a => if a = borrower then none else s.loanOf a,
     loanById := fun i => if i = loan.loan_id then none else s.loanById i,
     bal := Inh.applyTransfer
       (Inh.applyTransfer s.bal s.token borrower Lending.contractAddr
         (loan.principal + interest))
       loan.collateral_token Lending.contractAddr borrower loan.collateral_amount }

/-- C5: `repay` computes simple interest
`principal·rate_bps·elapsed/(10000·31 536 000)` (u128 intermediate),
collects `principal + interest`, returns the collateral, and splits the
interest as `protocol = interest·1000/10000`,
`reserve = protocol·5000/10000`, `retained = protocol − reserve`,
`pool = interest − protocol`, updating the pool buckets accordingly and
subtracting the principal from `total_borrowed`. -/
theorem claim5_repay_interest_split (s : Lending.LState) (borrower : Addr) (now : Nat)
    (loan : Lending.LoanRecord)
    (hadmin : s.admin.isNone = false)
    (hl : s.loanOf borrower = some loan)
    (hfit : loan.principal * loan.interest_rate_bps * (now - loan.borrow_time) < 2 ^ 128)
    (hint : loan.principal * loan.interest_rate_bps * (now - loan.borrow_time) /
      (10000 * 31536000) < 2 ^ 64)
    (htot : loan.principal +
      loan.principal * loan.interest_rate_bps * (now - loan.borrow_time) /
        (10000 * 31536000) < 2 ^ 64)
    (hbor : loan.principal ≤ s.pool.total_borrowed)
    (hd1 : s.pool.total_deposits +
      loan.principal * loan.interest_rate_bps * (now - loan.borrow_time) /
        (10000 * 31536000) < 2 ^ 64)
    (hd2 : s.pool.retained_yield +
      loan.principal * loan.interest_rate_bps * (now - loan.borrow_time) /
        (10000 * 31536000) < 2 ^ 64)
    (hd3 : s.pool.bad_debt_reserve +
      loan.principal * loan.interest_rate_bps * (now - loan.borrow_time) /
        (10000 * 31536000) < 2 ^ 64)
    (hb1 : loan.principal +
      loan.principal * loan.interest_rate_bps * (now - loan.borrow_time) /
        (10000 * 31536000) ≤ s.bal s.token borrower)
    (hb2 : loan.collateral_amount ≤
      Inh.applyTransfer s.bal s.token borrower Lending.contractAddr
        (loan.principal +
          loan.principal * loan.interest_rate_bps * (now - loan.borrow_time) /
            (10000 * 31536000))
        loan.collateral_token Lending.contractAddr) :
    Lending.repay s borrower now =
      .ok (repaySuccessState s borrower loan
             (loan.principal * loan.interest_rate_bps * (now - loan.borrow_time) /
               (10000 * 31536000)),
           loan.principal +
             loan.principal * loan.interest_rate_bps * (now - loan.borrow_time) /
               (10000 * 31536000)) := by
  have hint_eq : Lending.calculateInterest loan.principal loan.interest_rate_bps
      (now - loan.borrow_time) =
      loan.principal * loan.interest_rate_bps * (now - loan.borrow_time) /
        (10000 * 31536000) := by
    simp only [Lending.calculateInterest, Lending.SECONDS_IN_YEAR]
    by_cases he : now - loan.borrow_time = 0
    · simp [he]
    · by_cases hr : loan.interest_rate_bps = 0
      · simp [hr]
      · rw [if_neg (by simp [he, hr]), if_pos hfit]
        exact Nat.mod_eq_of_lt (by omega)
  have htr1 : Lending.transfer s.bal s.token borrower Lending.contractAddr
      (loan.principal +
        loan.principal * loan.interest_rate_bps * (now - loan.borrow_time) /
          (10000 * 31536000)) =
      .ok (Inh.applyTransfer s.bal s.token borrower Lending.contractAddr
        (loan.principal +
          loan.principal * loan.interest_rate_bps * (now - loan.borrow_time) /
            (10000 * 31536000))) := by
    simp only [Lending.transfer, Inh.tryTransfer]
    rw [if_pos hb1]
  have htr2 : Lending.transfer
      (Inh.applyTransfer s.bal s.token borrower Lending.contractAddr
        (loan.principal +
          loan.principal * loan.interest_rate_bps * (now - loan.borrow_time) /
            (10000 * 31536000)))
      loan.collateral_token Lending.contractAddr borrower loan.collateral_amount =
      .ok (Inh.applyTransfer
        (Inh.applyTransfer s.bal s.token borrower Lending.contractAddr
          (loan.principal +
            loan.principal * loan.interest_rate_bps * (now - loan.borrow_time) /
              (10000 * 31536000)))
        loan.collateral_token Lending.contractAddr borrower loan.collateral_amount) := by
    simp only [Lending.transfer, Inh.tryTransfer]
    rw [if_pos hb2]
  simp only [Lending.repay, hadmin, Bool.false_eq_true, if_false, hl, hint_eq,
    Lending.PROTOCOL_INTEREST_BPS, Lending.BAD_DEBT_RESERVE_BPS]
  rw [if_neg (by omega)]
  simp only [htr1, htr2]
  rw [if_neg (by omega), if_neg (by omega), if_neg (by omega), if_neg (by omega)]
  simp only [repaySuccessState]

/-- Open loan for the C5 witness: 5000 borrowed at 1500 bp at time 0. -/
def c5Loan : Lending.LoanRecord := {
  loan_id := 1, borrower := 3, principal := 5000, collateral_amount := 7500,
  collateral_token := 60, borrow_time := 0, due_date := 999999999,
  interest_rate_bps := 1500 }

/-- Pool for the C5 witness: 10000 deposited, 5000 borrowed. -/
def c5State : Lending.LState := {
  admin := some 1, token := 50,
  pool := {
    total_deposits := 10000, total_shares := 10000, total_borrowed := 5000,
    base_rate_bps := 0, multiplier_bps := 3000, utilization_cap_bps := 8000,
    retained_yield := 0, bad_debt_reserve := 0 },
  shares := fun _ => 0, loanOf := fun a => if a = 3 then some c5Loan else none,
  loanById := fun i => if i = 1 then some c5Loan else none, nextLoanId := 2,
  collateral_ratio_bps := 15000, whitelisted := fun t => t = 60,
  bal := fun t a =>
    if t = 50 ∧ a = 3 then 100000
    else if t = 60 ∧ a = Lending.contractAddr then 7500 else 0 }

/-- C5 witness: repaying the scenario loan after one year collects 5750
and leaves `total_deposits = 10675`, `retained_yield = 38`,
`bad_debt_reserve = 37`, `total_borrowed = 0`. -/
theorem claim5_repay_interest_split_witness :
    Lending.repay c5State 3 31536000 = .ok (repaySuccessState c5State 3 c5Loan 750, 5750) ∧
    (repaySuccessState c5State 3 c5Loan 750).pool = {
      total_deposits := 10675, total_shares := 10000, total_borrowed := 0,
      base_rate_bps := 0, multiplier_bps := 3000, utilization_cap_bps := 8000,
      retained_yield := 38, bad_debt_reserve := 37 } := by
  refine ⟨?_, by decide⟩
  exact claim5_repay_interest_split c5State 3 31536000 c5Loan rfl (by decide) (by decide)
    (by decide) (by decide) (by decide) (by decide) (by decide) (by decide) (by decide)
    (by decide)

/-! ## Claim C4: plan-creation fee -/

/-- Parameters for the C4 counterexample: `total_amount·200` overflows
u64, so the checked fee chain collapses to 0. -/
def c4OverParams : Inh.CreateParams := {
  owner := 2, token := 50, plan_name := [80], description := [],
  total_amount := 92233720368547759, distribution_method := .LumpSum,
  beneficiaries_data := [([65, 66], [97, 64, 98, 46, 99], 123456, [1, 2, 3], 10000)],
  is_lendable := false }

/-- State for the C4 counterexample: the owner holds exactly the input
amount. -/
def c4OverState : Inh.InhState := {
  nextPlanId := 1, plans := fun _ => none, claims := fun _ => none,
  userPlans := fun _ => [], userClaimedPlans := fun _ => [], allClaimedPlans := [],
  deactivatedPlans := [], kyc := fun _ => none, triggers := fun _ => none,
  admin := some 1, bal := fun t a => if t = 50 ∧ a = 2 then 92233720368547759 else 0 }

/-- C4 counterexample: with `total_amount = 92233720368547759` (so that
`total_amount·200 > 2^64-1`), `create_inheritance_plan` succeeds, stores
`plan.total_amount = total_amount` (no fee deducted) and transfers 0 to
the admin, while the claim's fee `total_amount·200/10000 =
1844674407370955` is nonzero. -/
theorem claim4_creation_fee_counterexample :
    (Inh.createInheritancePlan c4OverState c4OverParams 0).toOption.map
      (fun r => ((r.1.plans 1).map (fun p => p.total_amount), r.1.bal 50 1)) =
      some (some 92233720368547759, 0) ∧
    92233720368547759 * 200 / 10000 = 1844674407370955 ∧ (1844674407370955 ≠ 0) := by
  refine ⟨by decide, by decide, by decide⟩

/-- The plan stored by a successful `create_inheritance_plan`. -/
def createdPlan (params : Inh.CreateParams) (bs : List Inh.Beneficiary) (tot now : Nat) :
    Inh.InheritancePlan := {
  plan_name := params.plan_name, description := params.description, asset_type := "USDC",
  total_amount := params.total_amount - params.total_amount * 200 / 10000,
  distribution_method := params.distribution_method, beneficiaries := bs,
  total_allocation_bp := tot, owner := params.owner, created_at := now,
  is_active := true, is_lendable := params.is_lendable, total_loaned := 0 }

/-- Post-state of a successful `create_inheritance_plan` (fee within
u64): fee to the admin (skipped when it rounds to 0), net escrowed to the
contract, plan stored under the next id. -/
def createSuccessState (s : Inh.InhState) (params : Inh.CreateParams) (admin : Addr)
    (now : Nat) (bs : List Inh.Beneficiary) (tot : Nat) : Inh.InhState :=
  let fee := params.total_amount * 200 / 10000
  let bal1 := if fee = 0 then s.bal
              else Inh.applyTransfer s.bal params.token params.owner admin fee
  { s with
     nextPlanId := s.nextPlanId + 1,
     plans := fun p =>
       if p = s.nextPlanId then some (createdPlan params bs tot now) else s.plans p,
     userPlans := fun a =>
       if a = params.owner then s.userPlans params.owner ++ [s.nextPlanId]
       else s.userPlans a,
     bal := Inh.applyTransfer bal1 params.token params.owner Inh.contractAddr
       (params.total_amount - fee) }

/-- C4 (amended): for every `total_amount` with `total_amount·200 < 2^64`
the creation fee is exactly `total_amount·200/10000` (transferred
owner→admin when nonzero), the net `total_amount − fee` is escrowed, the
stored plan carries the net, and `total_amount = 0` (net 0) fails
`InvalidTotalAmount`; when `total_amount·200` overflows u64 the checked
fee chain collapses to 0 (counterexample). -/
theorem claim4_creation_fee_amended (s : Inh.InhState) (params : Inh.CreateParams)
    (admin : Addr) (now : Nat) (bs : List Inh.Beneficiary) (tot : Nat)
    (hadmin : s.admin = some admin) :
    (params.total_amount = 0 →
       Inh.createInheritancePlan s params now = .error .InvalidTotalAmount) ∧
    (0 < params.total_amount →
     params.total_amount * 200 < 2 ^ 64 →
     params.plan_name.isEmpty = false →
     params.description.length ≤ 500 →
     params.total_amount ≤ s.bal params.token params.owner →
     params.owner ≠ admin →
     Inh.validateBeneficiaries params.beneficiaries_data = .ok () →
     Inh.createBeneficiaries params.beneficiaries_data = .ok (bs, tot) →
       Inh.createInheritancePlan s params now =
         .ok (createSuccessState s params admin now bs tot, s.nextPlanId) ∧
       (createSuccessState s params admin now bs tot).plans s.nextPlanId =
         some (createdPlan params bs tot now) ∧
       (createdPlan params bs tot now).total_amount =
         params.total_amount - params.total_amount * 200 / 10000 ∧
       (admin ≠ Inh.contractAddr →
         (createSuccessState s params admin now bs tot).bal params.token admin =
           s.bal params.token admin + params.total_amount * 200 / 10000)) := by
  constructor
  · intro h0
    simp [Inh.createInheritancePlan, hadmin, Inh.CREATION_FEE_BP, h0]
  · intro hpos hfee hname hdesc hbal hne hvalb hbene
    have hfle : params.total_amount * 200 / 10000 ≤ params.total_amount := by omega
    have hnet0 : ¬(params.total_amount - params.total_amount * 200 / 10000 = 0) := by omega
    have hval : Inh.validatePlanInputs params.plan_name params.description "USDC"
        params.total_amount = .ok () := by
      simp [Inh.validatePlanInputs, hname, show ¬(500 < params.description.length) by omega,
            show params.total_amount ≠ 0 by omega]
    have hfeeStep :
        (if params.total_amount * 200 / 10000 = 0 then some s.bal
         else Inh.tryTransfer s.bal params.token params.owner admin
           (params.total_amount * 200 / 10000)) =
        some (if params.total_amount * 200 / 10000 = 0 then s.bal
              else Inh.applyTransfer s.bal params.token params.owner admin
                (params.total_amount * 200 / 10000)) := by
      by_cases hf : params.total_amount * 200 / 10000 = 0
      · simp [hf]
      · rw [if_neg hf, if_neg hf]
        simp only [Inh.tryTransfer]
        rw [if_pos (by omega)]
    have hnetStep : Inh.tryTransfer
        (if params.total_amount * 200 / 10000 = 0 then s.bal
         else Inh.applyTransfer s.bal params.token params.owner admin
           (params.total_amount * 200 / 10000))
        params.token params.owner Inh.contractAddr
        (params.total_amount - params.total_amount * 200 / 10000) =
        some (Inh.applyTransfer
          (if params.total_amount * 200 / 10000 = 0 then s.bal
           else Inh.applyTransfer s.bal params.token params.owner admin
             (params.total_amount * 200 / 10000))
          params.token params.owner Inh.contractAddr
          (params.total_amount - params.total_amount * 200 / 10000)) := by
      have happ : Inh.applyTransfer s.bal params.token params.owner admin
          (params.total_amount * 200 / 10000) params.token params.owner =
          s.bal params.token params.owner - params.total_amount * 200 / 10000 := by
        simp [Inh.applyTransfer, Inh.setBal, hne]
      by_cases hf : params.total_amount * 200 / 10000 = 0
      · rw [if_pos hf]
        simp only [Inh.tryTransfer]
        rw [if_pos (by omega)]
      · rw [if_neg hf]
        simp only [Inh.tryTransfer, happ]
        rw [if_pos (by omega)]
    refine ⟨?_, by simp [createSuccessState], rfl, fun hna => ?_⟩
    · simp only [Inh.createInheritancePlan, hadmin, Inh.CREATION_FEE_BP]
      rw [if_pos hfee, if_neg (by omega), if_neg hnet0, if_neg (by omega)]
      simp only [hval, hfeeStep, hnetStep, hvalb, hbene, createSuccessState, createdPlan,
        hadmin]
    · by_cases hf : params.total_amount * 200 / 10000 = 0
      · simp [createSuccessState, Inh.applyTransfer, Inh.setBal, hna, Ne.symm hne, hf]
      · simp [createSuccessState, Inh.applyTransfer, Inh.setBal, hna, Ne.symm hne, hf]

/-- Parameters for the C4 witness: the spec's creation-fee scenario. -/
def c4Params : Inh.CreateParams := {
  owner := 2, token := 50, plan_name := [80], description := [],
  total_amount := 100000, distribution_method := .LumpSum,
  beneficiaries_data := [([65, 66], [97, 64, 98, 46, 99], 123456, [1, 2, 3], 10000)],
  is_lendable := false }

/-- State for the C4 witness: admin 1, owner 2 holds 10 000 000. -/
def c4State : Inh.InhState := {
  nextPlanId := 1, plans := fun _ => none, claims := fun _ => none,
  userPlans := fun _ => [], userClaimedPlans := fun _ => [], allClaimedPlans := [],
  deactivatedPlans := [], kyc := fun _ => none, triggers := fun _ => none,
  admin := some 1, bal := fun t a => if t = 50 ∧ a = 2 then 10000000 else 0 }

/-- The beneficiary list built by `create_inheritance_plan` for the C4
witness. -/
def c4Benes : List Inh.Beneficiary := [{
  hashed_full_name := Inh.hashString [65, 66],
  hashed_email := Inh.hashString [97, 64, 98, 46, 99],
  hashed_claim_code := Sha256.sha256 (Inh.claimCodeBytes 123456),
  bank_account := [1, 2, 3], allocation_bp := 10000 }]

/-- C4 witness: creating a plan with `total_amount = 100000` succeeds,
stores `plan.total_amount = 98000`, and the admin receives exactly 2000. -/
theorem claim4_creation_fee_amended_witness :
    Inh.createInheritancePlan c4State c4Params 5 =
      .ok (createSuccessState c4State c4Params 1 5 c4Benes 10000, 1) ∧
    (createSuccessState c4State c4Params 1 5 c4Benes 10000).plans 1 =
      some (createdPlan c4Params c4Benes 10000 5) ∧
    (createdPlan c4Params c4Benes 10000 5).total_amount = 98000 ∧
    (createSuccessState c4State c4Params 1 5 c4Benes 10000).bal 50 1 = 2000 := by
  have h := (claim4_creation_fee_amended c4State c4Params 1 5 c4Benes 10000 rfl).2
    (by decide) (by decide) (by decide) (by decide) (by decide) (by decide) rfl rfl
  exact ⟨h.1, h.2.1, by decide, (h.2.2.2 (by decide)).trans (by decide)⟩

/-! ## Claim C1: claim gates (time, liquidity, trigger bypass) -/

/-- Post-state of a successful `claim_inheritance_plan`. -/
def claimSuccessState (s : Inh.InhState) (plan_id : Nat) (plan : Inh.InheritancePlan)
    (email : List Nat) (now idx : Nat) (payout : Nat) : Inh.InhState :=
  { s with
     claims := fun k =>
       if k = Inh.claimKey plan_id (Inh.hashString email) then
         some { plan_id := plan_id, beneficiary_index := idx, claimed_at := now }
       else s.claims k,
     plans := fun p =>
       if p = plan_id then some { plan with total_amount := plan.total_amount - payout }
       else s.plans p,
     userClaimedPlans := fun a =>
       if a = plan.owner then Inh.addUnique (s.userClaimedPlans plan.owner) plan_id
       else s.userClaimedPlans a,
     allClaimedPlans := Inh.addUnique s.allClaimedPlans plan_id }

/-- The payout cast is the identity for a registered beneficiary
(allocation ≤ 10000 bp) of a u64-sized plan. -/
theorem basePayout_eq (plan : Inh.InheritancePlan) (b : Inh.Beneficiary)
    (hbp : b.allocation_bp ≤ 10000) (hta : plan.total_amount < 2 ^ 64) :
    Inh.basePayout plan b = plan.total_amount * b.allocation_bp / 10000 := by
  have hle : plan.total_amount * b.allocation_bp / 10000 ≤ plan.total_amount := by
    calc plan.total_amount * b.allocation_bp / 10000
        ≤ plan.total_amount * 10000 / 10000 :=
          Nat.div_le_div_right (Nat.mul_le_mul_left _ hbp)
      _ = plan.total_amount := by omega
  exact Nat.mod_eq_of_lt (by omega)

/-- C1: with the plan active, (a) the time gate fails closed with
`ClaimNotAllowedYet` for every untriggered plan whose gate has not
elapsed; (b) an untriggered claim whose payout exceeds
`total_amount − total_loaned` fails `InsufficientLiquidity`; (c) once a
trigger record exists, a registered beneficiary's claim succeeds
regardless of elapsed time and of `total_loaned`, reduces
`plan.total_amount` by `base_payout` (saturating), and emits
`CLAIM/SUCCESS(plan_id, hashed_email, base_payout)`. -/
theorem claim1_claim_gates (s : Inh.InhState) (plan_id : Nat)
    (plan : Inh.InheritancePlan) (email : List Nat) (now : Nat)
    (hp : s.plans plan_id = some plan)
    (hact : plan.is_active = true) :
    (s.triggers plan_id = none →
      (Inh.isClaimTimeValid now plan = false →
        ∀ claim_code, Inh.claimInheritancePlan s plan_id email claim_code now =
          .error .ClaimNotAllowedYet) ∧
      (∀ claim_code hc idx b,
        Inh.isClaimTimeValid now plan = true →
        Inh.hashClaimCode claim_code = .ok hc →
        s.claims (Inh.claimKey plan_id (Inh.hashString email)) = none →
        Inh.findBeneficiary plan.beneficiaries (Inh.hashString email) hc = some (idx, b) →
        b.allocation_bp ≤ 10000 → plan.total_amount < 2 ^ 64 →
        plan.total_amount - plan.total_loaned <
          plan.total_amount * b.allocation_bp / 10000 →
          Inh.claimInheritancePlan s plan_id email claim_code now =
            .error .InsufficientLiquidity)) ∧
    (∀ ti claim_code hc idx b,
      s.triggers plan_id = some ti →
      Inh.hashClaimCode claim_code = .ok hc →
      s.claims (Inh.claimKey plan_id (Inh.hashString email)) = none →
      Inh.findBeneficiary plan.beneficiaries (Inh.hashString email) hc = some (idx, b) →
      b.allocation_bp ≤ 10000 → plan.total_amount < 2 ^ 64 →
        Inh.claimInheritancePlan s plan_id email claim_code now =
          .ok (claimSuccessState s plan_id plan email now idx
                 (plan.total_amount * b.allocation_bp / 10000),
               [.ClaimSuccess plan_id (Inh.hashString email)
                  (plan.total_amount * b.allocation_bp / 10000)])) := by
  refine ⟨fun htrig => ⟨fun hgate claim_code => ?_,
          fun claim_code hc idx b hgate hcode hkey hfind hbp hta hliq => ?_⟩,
          fun ti claim_code hc idx b htrig hcode hkey hfind hbp hta => ?_⟩
  · simp [Inh.claimInheritancePlan, hp, hact, htrig, hgate]
  · simp only [Inh.claimInheritancePlan, hp, hact, htrig, hgate, hcode, hkey, hfind,
      Bool.not_true, Bool.not_false, Option.isSome_none, Option.isSome_some,
      Bool.true_and, Bool.false_and, Bool.and_self, if_false,
      basePayout_eq plan b hbp hta]
    simp [hliq, hact]
  · simp only [Inh.claimInheritancePlan, hp, hact, htrig, hcode, hkey, hfind,
      Bool.not_true, Bool.not_false, Option.isSome_none, Option.isSome_some,
      Bool.true_and, Bool.false_and, Bool.and_self, if_false,
      basePayout_eq plan b hbp hta, claimSuccessState]
    simp [hact]

/-- Registered beneficiary (100% allocation) for the C1 witness. -/
def c1Bene : Inh.Beneficiary := {
  hashed_full_name := Inh.hashString [65, 66],
  hashed_email := Inh.hashString [97, 64, 98, 46, 99],
  hashed_claim_code := Sha256.sha256 (Inh.claimCodeBytes 123456),
  bank_account := [1, 2, 3], allocation_bp := 10000 }

/-- Yearly plan with 980 net and 500 loaned, created at time 0. -/
def c1PlanYearly : Inh.InheritancePlan := {
  plan_name := [80], description := [], asset_type := "USDC", total_amount := 980,
  distribution_method := .Yearly, beneficiaries := [c1Bene], total_allocation_bp := 10000,
  owner := 2, created_at := 0, is_active := true, is_lendable := true, total_loaned := 500 }

/-- The same plan with the LumpSum method (time gate always open). -/
def c1PlanLump : Inh.InheritancePlan := { c1PlanYearly with distribution_method := .LumpSum }

/-- Base state for the C1 witness. -/
def c1StateYearly : Inh.InhState := {
  nextPlanId := 2, plans := fun p => if p = 1 then some c1PlanYearly else none,
  claims := fun _ => none, userPlans := fun _ => [], userClaimedPlans := fun _ => [],
  allClaimedPlans := [], deactivatedPlans := [], kyc := fun _ => none,
  triggers := fun _ => none, admin := some 1, bal := fun _ _ => 0 }

def c1StateLump : Inh.InhState := { c1StateYearly with
  plans := fun p => if p = 1 then some c1PlanLump else none }

/-- The Yearly-plan state after `trigger_inheritance`. -/
def c1StateTrig : Inh.InhState := { c1StateYearly with
  triggers := fun p =>
    if p = 1 then
      some { triggered_at := 5, loan_freeze_active := true, recall_attempted := false,
             liquidation_triggered := false, original_loaned := 500, recalled_amount := 0,
             settled_amount := 0 }
    else none }

/-- C1 witness: the spec's scenarios 2 and 3 — pre-trigger the Yearly
claim fails `ClaimNotAllowedYet`, the LumpSum claim with 500 loaned fails
`InsufficientLiquidity` (980 > 480), and after the trigger the claim
succeeds, drops `total_amount` to 0 and emits
`CLAIM/SUCCESS(1, hashed_email, 980)`. -/
theorem claim1_claim_gates_witness :
    Inh.claimInheritancePlan c1StateYearly 1 [97, 64, 98, 46, 99] 123456 5 =
      .error .ClaimNotAllowedYet ∧
    Inh.claimInheritancePlan c1StateLump 1 [97, 64, 98, 46, 99] 123456 5 =
      .error .InsufficientLiquidity ∧
    Inh.claimInheritancePlan c1StateTrig 1 [97, 64, 98, 46, 99] 123456 5 =
      .ok (claimSuccessState c1StateTrig 1 c1PlanYearly [97, 64, 98, 46, 99] 5 0 980,
           [.ClaimSuccess 1 (Inh.hashString [97, 64, 98, 46, 99]) 980]) := by
  have hfindY : Inh.findBeneficiary c1PlanYearly.beneficiaries
      (Inh.hashString [97, 64, 98, 46, 99]) (Sha256.sha256 (Inh.claimCodeBytes 123456)) =
      some (0, c1Bene) := by
    simp [c1PlanYearly, Inh.findBeneficiary, c1Bene]
  refine ⟨?_, ?_, ?_⟩
  · exact ((claim1_claim_gates c1StateYearly 1 c1PlanYearly [97, 64, 98, 46, 99] 5
      rfl rfl).1 rfl).1 (by decide) 123456
  · exact ((claim1_claim_gates c1StateLump 1 c1PlanLump [97, 64, 98, 46, 99] 5
      rfl rfl).1 rfl).2 123456 (Sha256.sha256 (Inh.claimCodeBytes 123456)) 0 c1Bene
      (by decide) rfl rfl (by simpa [c1PlanLump] using hfindY) (by decide) (by decide)
      (by decide)
  · exact (claim1_claim_gates c1StateTrig 1 c1PlanYearly [97, 64, 98, 46, 99] 5
      rfl rfl).2 _ 123456 (Sha256.sha256 (Inh.claimCodeBytes 123456)) 0 c1Bene
      rfl rfl rfl hfindY (by decide) (by decide)

/-! ## Claim C3: claim idempotency per (plan_id, hashed_email) -/

/-- The time gate is monotone in the clock. -/
theorem isClaimTimeValid_mono (plan : Inh.InheritancePlan) (now now' : Nat)
    (h : now ≤ now') (hv : Inh.isClaimTimeValid now plan = true) :
    Inh.isClaimTimeValid now' plan = true := by
  unfold Inh.isClaimTimeValid at *
  cases hdm : plan.distribution_method <;> simp [hdm] at hv ⊢ <;> omega

/-- C3: a successful `claim_inheritance_plan` leaves a record under the
composite key `sha256(plan_id_be ∥ hashed_email)`, and any later claim
for the same plan and email (any claim code in range) fails
`AlreadyClaimed`. -/
theorem claim3_claim_idempotent (s : Inh.InhState) (plan_id : Nat) (email : List Nat)
    (claim_code now : Nat) (s' : Inh.InhState) (evs : List Inh.InhEvent)
    (h : Inh.claimInheritancePlan s plan_id email claim_code now = .ok (s', evs)) :
    (s'.claims (Inh.claimKey plan_id (Inh.hashString email))).isSome = true ∧
    ∀ claim_code' now', claim_code' ≤ 999999 → now ≤ now' →
      Inh.claimInheritancePlan s' plan_id email claim_code' now' =
        .error .AlreadyClaimed := by
  simp only [Inh.claimInheritancePlan] at h
  split at h
  · simp at h
  rename_i plan hplan
  split at h
  · simp at h
  rename_i hactB
  split at h
  · simp at h
  rename_i hgateB
  split at h
  · simp at h
  rename_i hcc hcode
  split at h
  · simp at h
  rename_i hkeyB
  split at h
  · simp at h
  rename_i idx b hfind
  split at h
  · simp at h
  rename_i hliqB
  rw [Except.ok.injEq, Prod.mk.injEq] at h
  obtain ⟨hs, hevs⟩ := h
  subst hs
  have hact : plan.is_active = true := by simpa using hactB
  refine ⟨by simp, fun claim_code' now' hrange hnow' => ?_⟩
  have hcode2 : Inh.hashClaimCode claim_code' =
      .ok (Sha256.sha256 (Inh.claimCodeBytes claim_code')) := by
    simp [Inh.hashClaimCode, show ¬(999999 < claim_code') by omega]
  have hgate2 : ∀ ta : Nat,
      (!(s.triggers plan_id).isSome &&
        !Inh.isClaimTimeValid now' { plan with total_amount := ta }) = false := by
    intro ta
    have hsame : Inh.isClaimTimeValid now' { plan with total_amount := ta } =
        Inh.isClaimTimeValid now' plan := rfl
    cases htv : (s.triggers plan_id).isSome with
    | true => simp [htv]
    | false =>
      have hv : Inh.isClaimTimeValid now plan = true := by
        by_contra hv
        exact hgateB (by simp [htv, Bool.not_eq_true _ ▸ hv, eq_false_of_ne_true hv])
      simp [htv, hsame, isClaimTimeValid_mono plan now now' hnow' hv]
  simp only [Inh.claimInheritancePlan]
  simp [hact, hgate2, hcode2]
  intro htrig
  have hv : Inh.isClaimTimeValid now plan = true := by
    by_contra hv
    simp [htrig, eq_false_of_ne_true hv] at hgateB
  exact isClaimTimeValid_mono plan now now' hnow' hv

/-- Beneficiary for the C3 witness. -/
def c3Bene : Inh.Beneficiary := {
  hashed_full_name := Inh.hashString [65, 66],
  hashed_email := Inh.hashString [97, 64, 98, 46, 99],
  hashed_claim_code := Sha256.sha256 (Inh.claimCodeBytes 123456),
  bank_account := [1, 2, 3], allocation_bp := 10000 }

/-- LumpSum plan with no loans for the C3 witness. -/
def c3Plan : Inh.InheritancePlan := {
  plan_name := [80], description := [], asset_type := "USDC", total_amount := 1000,
  distribution_method := .LumpSum, beneficiaries := [c3Bene], total_allocation_bp := 10000,
  owner := 2, created_at := 0, is_active := true, is_lendable := false, total_loaned := 0 }

/-- State for the C3 witness. -/
def c3State : Inh.InhState := {
  nextPlanId := 2, plans := fun p => if p = 1 then some c3Plan else none,
  claims := fun _ => none, userPlans := fun _ => [], userClaimedPlans := fun _ => [],
  allClaimedPlans := [], deactivatedPlans := [], kyc := fun _ => none,
  triggers := fun _ => none, admin := some 1, bal := fun _ _ => 0 }

/-- C3 witness: after a concrete successful claim, the composite claim
key is present, and a second claim with the same email and a different
in-range claim code fails `AlreadyClaimed`. -/
theorem claim3_claim_idempotent_witness :
    ((claimSuccessState c3State 1 c3Plan [97, 64, 98, 46, 99] 5 0 1000).claims
      (Inh.claimKey 1 (Inh.hashString [97, 64, 98, 46, 99]))).isSome = true ∧
    Inh.claimInheritancePlan
      (claimSuccessState c3State 1 c3Plan [97, 64, 98, 46, 99] 5 0 1000)
      1 [97, 64, 98, 46, 99] 654321 10 = .error .AlreadyClaimed := by
  have h := claim3_claim_idempotent c3State 1 [97, 64, 98, 46, 99] 123456 5
    (claimSuccessState c3State 1 c3Plan [97, 64, 98, 46, 99] 5 0 1000)
    [.ClaimSuccess 1 (Inh.hashString [97, 64, 98, 46, 99]) 1000] rfl
  exact ⟨h.1, h.2 654321 10 (by decide) (by decide)⟩

/-! ## Claim C2: the `total_loaned ≤ total_amount` invariant -/

/-- The per-plan loan invariant: every stored plan satisfies
`total_loaned ≤ total_amount`. -/
def PlansInv (s : Inh.InhState) : Prop :=
  ∀ pid plan, s.plans pid = some plan → plan.total_loaned ≤ plan.total_amount

/-- Invariant preservation for a single-plan store update. -/
theorem plansInv_if (s : Inh.InhState) (hinv : PlansInv s) (pid : Nat)
    (p' : Inh.InheritancePlan) (hp' : p'.total_loaned ≤ p'.total_amount)
    (q : Nat) (plan : Inh.InheritancePlan)
    (hq : (if q = pid then some p' else s.plans q) = some plan) :
    plan.total_loaned ≤ plan.total_amount := by
  by_cases h : q = pid
  · rw [if_pos h] at hq
    cases hq
    exact hp'
  · rw [if_neg h] at hq
    exact hinv q plan hq

/-- Beneficiary for the C2 counterexample. -/
def c2Bene : Inh.Beneficiary := {
  hashed_full_name := Inh.hashString [65, 66],
  hashed_email := Inh.hashString [97, 64, 98, 46, 99],
  hashed_claim_code := Sha256.sha256 (Inh.claimCodeBytes 123456),
  bank_account := [1, 2, 3], allocation_bp := 10000 }

/-- Plan with 980 net and 500 loaned for the C2 counterexample. -/
def c2Plan : Inh.InheritancePlan := {
  plan_name := [80], description := [], asset_type := "USDC", total_amount := 980,
  distribution_method := .Yearly, beneficiaries := [c2Bene], total_allocation_bp := 10000,
  owner := 2, created_at := 0, is_active := true, is_lendable := true, total_loaned := 500 }

/-- Triggered state for the C2 counterexample. -/
def c2State : Inh.InhState := {
  nextPlanId := 2, plans := fun p => if p = 1 then some c2Plan else none,
  claims := fun _ => none, userPlans := fun _ => [], userClaimedPlans := fun _ => [],
  allClaimedPlans := [], deactivatedPlans := [], kyc := fun _ => none,
  triggers := fun p =>
    if p = 1 then
      some { triggered_at := 5, loan_freeze_active := true, recall_attempted := false,
             liquidation_triggered := false, original_loaned := 500, recalled_amount := 0,
             settled_amount := 0 }
    else none,
  admin := some 1, bal := fun _ _ => 0 }

/-- C2 counterexample: starting from a state satisfying the invariant
(500 ≤ 980), a successful claim on the triggered plan pays out the full
980 and leaves `total_loaned = 500 > total_amount = 0`, violating the
invariant the claim asserts for every successful operation. -/
theorem claim2_invariant_counterexample :
    PlansInv c2State ∧
    Inh.step c2State (.claim 1 [97, 64, 98, 46, 99] 123456 5) =
      .ok (claimSuccessState c2State 1 c2Plan [97, 64, 98, 46, 99] 5 0 980) ∧
    ¬ PlansInv (claimSuccessState c2State 1 c2Plan [97, 64, 98, 46, 99] 5 0 980) := by
  refine ⟨?_, rfl, ?_⟩
  · intro pid plan hq
    simp only [c2State] at hq
    split at hq
    · cases hq
      decide
    · cases hq
  · intro hinv
    have h := hinv 1 { c2Plan with total_amount := c2Plan.total_amount - 980 } rfl
    simp [c2Plan] at h

/-- `create_inheritance_plan` preserves the loan invariant: the stored
plan starts with `total_loaned = 0`. -/
theorem plansInv_create (s : Inh.InhState) (params : Inh.CreateParams) (now : Nat)
    (r : Inh.InhState × Nat) (hinv : PlansInv s)
    (h : Inh.createInheritancePlan s params now = .ok r) : PlansInv r.1 := by
  simp only [Inh.createInheritancePlan] at h
  repeat' (first | exact Except.noConfusion h | split at h)
  all_goals cases h
  all_goals intro q plan hq
  all_goals exact plansInv_if s hinv _ _ (Nat.zero_le _) q plan hq

/-- `initialize_admin` preserves the loan invariant (plans untouched). -/
theorem plansInv_initAdmin (s : Inh.InhState) (admin : Addr) (s1 : Inh.InhState)
    (hinv : PlansInv s) (h : Inh.initializeAdmin s admin = .ok s1) : PlansInv s1 := by
  simp only [Inh.initializeAdmin] at h
  split at h
  · simp at h
  cases h
  exact hinv

/-- `set_lendable` preserves the loan invariant (amounts untouched). -/
theorem plansInv_setLendable (s : Inh.InhState) (owner : Addr) (plan_id : Nat) (flag : Bool)
    (r : Inh.InhState × List Inh.InhEvent) (hinv : PlansInv s)
    (h : Inh.setLendable s owner plan_id flag = .ok r) : PlansInv r.1 := by
  simp only [Inh.setLendable] at h
  split at h
  · simp at h
  rename_i plan hplan
  split at h
  · simp at h
  cases h
  intro q p hq
  refine plansInv_if s hinv _ _ ?_ q p hq
  show plan.total_loaned ≤ plan.total_amount
  exact hinv _ _ hplan

/-- `deposit` preserves the loan invariant (`total_amount` grows). -/
theorem plansInv_deposit (s : Inh.InhState) (owner token : Addr) (plan_id amount : Nat)
    (r : Inh.InhState × List Inh.InhEvent) (hinv : PlansInv s)
    (h : Inh.deposit s owner token plan_id amount = .ok r) : PlansInv r.1 := by
  simp only [Inh.deposit] at h
  split at h
  · simp at h
  split at h
  · simp at h
  rename_i plan hplan
  split at h
  · simp at h
  split at h
  · simp at h
  split at h
  · simp at h
  split at h
  · simp at h
  split at h
  · simp at h
  cases h
  intro q p hq
  refine plansInv_if s hinv _ _ ?_ q p hq
  show plan.total_loaned ≤ plan.total_amount + amount
  have := hinv _ _ hplan
  omega

/-- `withdraw` preserves the loan invariant (never below `total_loaned`). -/
theorem plansInv_withdraw (s : Inh.InhState) (owner token : Addr) (plan_id amount : Nat)
    (r : Inh.InhState × List Inh.InhEvent) (hinv : PlansInv s)
    (h : Inh.withdraw s owner token plan_id amount = .ok r) : PlansInv r.1 := by
  simp only [Inh.withdraw] at h
  split at h
  · simp at h
  split at h
  · simp at h
  rename_i plan hplan
  split at h
  · simp at h
  split at h
  · simp at h
  rename_i havail
  split at h
  · simp at h
  cases h
  intro q p hq
  refine plansInv_if s hinv _ _ ?_ q p hq
  show plan.total_loaned ≤ plan.total_amount - amount
  have := hinv _ _ hplan
  omega

/-- `add_beneficiary` preserves the loan invariant (amounts untouched). -/
theorem plansInv_addBeneficiary (s : Inh.InhState) (owner : Addr) (plan_id : Nat)
    (input : Inh.BeneficiaryInput) (r : Inh.InhState × List Inh.InhEvent)
    (hinv : PlansInv s) (h : Inh.addBeneficiary s owner plan_id input = .ok r) :
    PlansInv r.1 := by
  simp only [Inh.addBeneficiary] at h
  split at h
  · simp at h
  rename_i plan hplan
  split at h
  · simp at h
  split at h
  · simp at h
  split at h
  · simp at h
  split at h
  · simp at h
  split at h
  · simp at h
  split at h
  · simp at h
  cases h
  intro q p hq
  refine plansInv_if s hinv _ _ ?_ q p hq
  show plan.total_loaned ≤ plan.total_amount
  exact hinv _ _ hplan

/-- `remove_beneficiary` preserves the loan invariant (amounts untouched). -/
theorem plansInv_removeBeneficiary (s : Inh.InhState) (owner : Addr) (plan_id index : Nat)
    (r : Inh.InhState × List Inh.InhEvent) (hinv : PlansInv s)
    (h : Inh.removeBeneficiary s owner plan_id index = .ok r) : PlansInv r.1 := by
  simp only [Inh.removeBeneficiary] at h
  split at h
  · simp at h
  rename_i plan hplan
  split at h
  · simp at h
  split at h
  · simp at h
  split at h
  · simp at h
  cases h
  intro q p hq
  refine plansInv_if s hinv _ _ ?_ q p hq
  show plan.total_loaned ≤ plan.total_amount
  exact hinv _ _ hplan

/-- `deactivate_inheritance_plan` preserves the loan invariant. -/
theorem plansInv_deactivate (s : Inh.InhState) (owner : Addr) (plan_id now : Nat)
    (r : Inh.InhState × List Inh.InhEvent) (hinv : PlansInv s)
    (h : Inh.deactivateInheritancePlan s owner plan_id now = .ok r) : PlansInv r.1 := by
  simp only [Inh.deactivateInheritancePlan] at h
  split at h
  · simp at h
  rename_i plan hplan
  split at h
  · simp at h
  split at h
  · simp at h
  cases h
  intro q p hq
  refine plansInv_if s hinv _ _ ?_ q p hq
  show plan.total_loaned ≤ plan.total_amount
  exact hinv _ _ hplan

/-- `submit_kyc` preserves the loan invariant (plans untouched). -/
theorem plansInv_submitKyc (s : Inh.InhState) (user : Addr) (now : Nat)
    (s1 : Inh.InhState) (hinv : PlansInv s) (h : Inh.submitKyc s user now = .ok s1) :
    PlansInv s1 := by
  simp only [Inh.submitKyc] at h
  split at h
  · simp at h
  cases h
  intro q p hq
  exact hinv q p hq

/-- `approve_kyc` preserves the loan invariant (plans untouched). -/
theorem plansInv_approveKyc (s : Inh.InhState) (admin user : Addr) (now : Nat)
    (r : Inh.InhState × List Inh.InhEvent) (hinv : PlansInv s)
    (h : Inh.approveKyc s admin user now = .ok r) : PlansInv r.1 := by
  simp only [Inh.approveKyc] at h
  split at h
  · simp at h
  split at h
  · simp at h
  split at h
  · simp at h
  split at h
  · simp at h
  cases h
  intro q p hq
  exact hinv q p hq

/-- `reject_kyc` preserves the loan invariant (plans untouched). -/
theorem plansInv_rejectKyc (s : Inh.InhState) (admin user : Addr) (now : Nat)
    (r : Inh.InhState × List Inh.InhEvent) (hinv : PlansInv s)
    (h : Inh.rejectKyc s admin user now = .ok r) : PlansInv r.1 := by
  simp only [Inh.rejectKyc] at h
  split at h
  · simp at h
  split at h
  · simp at h
  split at h
  · simp at h
  split at h
  · simp at h
  cases h
  intro q p hq
  exact hinv q p hq

/-- `trigger_inheritance` preserves the loan invariant (only the
`is_lendable` flag changes on the plan). -/
theorem plansInv_trigger (s : Inh.InhState) (admin : Addr) (plan_id now : Nat)
    (r : Inh.InhState × List Inh.InhEvent) (hinv : PlansInv s)
    (h : Inh.triggerInheritance s admin plan_id now = .ok r) : PlansInv r.1 := by
  simp only [Inh.triggerInheritance] at h
  split at h
  · simp at h
  split at h
  · simp at h
  rename_i plan hplan
  split at h
  · simp at h
  split at h
  · simp at h
  cases h
  intro q p hq
  refine plansInv_if s hinv _ _ ?_ q p hq
  show plan.total_loaned ≤ plan.total_amount
  exact hinv _ _ hplan

/-- `recall_loan` preserves the loan invariant: `total_loaned` only
shrinks. -/
theorem plansInv_recall (s : Inh.InhState) (admin : Addr) (plan_id amount : Nat)
    (r : Inh.InhState × List Inh.InhEvent) (hinv : PlansInv s)
    (h : Inh.recallLoan s admin plan_id amount = .ok r) : PlansInv r.1 := by
  simp only [Inh.recallLoan] at h
  split at h
  · simp at h
  split at h
  · simp at h
  rename_i plan hplan
  split at h
  · simp at h
  split at h
  · simp at h
  split at h
  · simp at h
  split at h
  · simp at h
  cases h
  intro q p hq
  refine plansInv_if s hinv _ _ ?_ q p hq
  show plan.total_loaned - amount ≤ plan.total_amount
  have := hinv _ _ hplan
  omega

/-- `liquidation_fallback` preserves the loan invariant: the stored
plan ends with `total_loaned = 0`. -/
theorem plansInv_liquidation (s : Inh.InhState) (admin : Addr) (plan_id : Nat)
    (r : Inh.InhState × List Inh.InhEvent) (hinv : PlansInv s)
    (h : Inh.liquidationFallback s admin plan_id = .ok r) : PlansInv r.1 := by
  simp only [Inh.liquidationFallback] at h
  split at h
  · simp at h
  split at h
  · simp at h
  rename_i plan hplan
  split at h
  · simp at h
  split at h
  · simp at h
  split at h
  · simp at h
  cases h
  intro q p hq
  exact plansInv_if s hinv _ _ (Nat.zero_le _) q p hq

/-- `claim_inheritance_plan` preserves the loan invariant provided the
payout fits into the unloaned part of the plan (which the source only
checks when the plan is untriggered). -/
theorem plansInv_claim (s : Inh.InhState) (plan_id : Nat) (email : List Nat)
    (claim_code now : Nat) (r : Inh.InhState × List Inh.InhEvent)
    (hinv : PlansInv s)
    (hg : s.triggers plan_id = none ∨
      ∀ plan hcode idx b, s.plans plan_id = some plan →
        Inh.hashClaimCode claim_code = .ok hcode →
        Inh.findBeneficiary plan.beneficiaries (Inh.hashString email) hcode =
          some (idx, b) →
        Inh.basePayout plan b ≤ plan.total_amount - plan.total_loaned)
    (h : Inh.claimInheritancePlan s plan_id email claim_code now = .ok r) :
    PlansInv r.1 := by
  simp only [Inh.claimInheritancePlan] at h
  split at h
  · simp at h
  rename_i plan hplan
  split at h
  · simp at h
  split at h
  · simp at h
  split at h
  · simp at h
  rename_i hcode hcodeEq
  split at h
  · simp at h
  split at h
  · simp at h
  rename_i index bene hfind
  split at h
  · simp at h
  rename_i hng
  cases h
  intro q p hq
  refine plansInv_if s hinv _ _ ?_ q p hq
  show plan.total_loaned ≤ plan.total_amount - Inh.basePayout plan bene
  have hle : Inh.basePayout plan bene ≤ plan.total_amount - plan.total_loaned := by
    rcases hg with hnone | hg
    · simp only [hnone, Option.isSome_none, Bool.not_false, Bool.true_and,
        decide_eq_true_eq] at hng
      exact Nat.le_of_not_lt hng
    · exact hg plan hcode index bene hplan hcodeEq hfind
  have := hinv _ _ hplan
  omega

/-- The extra precondition under which every operation preserves the
loan invariant.  Only `claim` needs one: either the plan is untriggered
(then the source's own liquidity check suffices) or the payout of the
matched beneficiary fits into the unloaned part of the plan.  All other
operations need no side condition. -/
def ClaimGuard (s : Inh.InhState) : Inh.InhOp → Prop
  | .claim plan_id email claim_code _ =>
      s.triggers plan_id = none ∨
      ∀ plan hcode idx b, s.plans plan_id = some plan →
        Inh.hashClaimCode claim_code = .ok hcode →
        Inh.findBeneficiary plan.beneficiaries (Inh.hashString email) hcode =
          some (idx, b) →
        Inh.basePayout plan b ≤ plan.total_amount - plan.total_loaned
  | _ => True

/-- C2: amended invariant.  The spec asserts that every successful
operation preserves `total_loaned ≤ total_amount` for every stored
plan.  That fails for `claim_inheritance_plan` on a triggered plan
(see the counterexample), so the preservation theorem additionally
requires `ClaimGuard`: for a `claim` op the plan is untriggered or the
payout fits into `total_amount - total_loaned`; all other operations
preserve the invariant unconditionally. -/
theorem claim2_invariant_amended (s : Inh.InhState) (op : Inh.InhOp)
    (s' : Inh.InhState) (hinv : PlansInv s) (hg : ClaimGuard s op)
    (h : Inh.step s op = .ok s') : PlansInv s' := by
  cases op with
  | create params now =>
    simp only [Inh.step] at h
    cases hc : Inh.createInheritancePlan s params now with
    | error e => simp [hc, Except.map] at h
    | ok r =>
      simp only [hc, Except.map] at h
      cases h
      exact plansInv_create s params now r hinv hc
  | initAdmin admin =>
    simp only [Inh.step] at h
    exact plansInv_initAdmin s admin s' hinv h
  | setLendable owner plan_id flag =>
    simp only [Inh.step] at h
    cases hc : Inh.setLendable s owner plan_id flag with
    | error e => simp [hc, Except.map] at h
    | ok r =>
      simp only [hc, Except.map] at h
      cases h
      exact plansInv_setLendable s owner plan_id flag r hinv hc
  | deposit owner token plan_id amount =>
    simp only [Inh.step] at h
    cases hc : Inh.deposit s owner token plan_id amount with
    | error e => simp [hc, Except.map] at h
    | ok r =>
      simp only [hc, Except.map] at h
      cases h
      exact plansInv_deposit s owner token plan_id amount r hinv hc
  | withdraw owner token plan_id amount =>
    simp only [Inh.step] at h
    cases hc : Inh.withdraw s owner token plan_id amount with
    | error e => simp [hc, Except.map] at h
    | ok r =>
      simp only [hc, Except.map] at h
      cases h
      exact plansInv_withdraw s owner token plan_id amount r hinv hc
  | addBeneficiary owner plan_id input =>
    simp only [Inh.step] at h
    cases hc : Inh.addBeneficiary s owner plan_id input with
    | error e => simp [hc, Except.map] at h
    | ok r =>
      simp only [hc, Except.map] at h
      cases h
      exact plansInv_addBeneficiary s owner plan_id input r hinv hc
  | removeBeneficiary owner plan_id index =>
    simp only [Inh.step] at h
    cases hc : Inh.removeBeneficiary s owner plan_id index with
    | error e => simp [hc, Except.map] at h
    | ok r =>
      simp only [hc, Except.map] at h
      cases h
      exact plansInv_removeBeneficiary s owner plan_id index r hinv hc
  | deactivate owner plan_id now =>
    simp only [Inh.step] at h
    cases hc : Inh.deactivateInheritancePlan s owner plan_id now with
    | error e => simp [hc, Except.map] at h
    | ok r =>
      simp only [hc, Except.map] at h
      cases h
      exact plansInv_deactivate s owner plan_id now r hinv hc
  | claim plan_id email code now =>
    simp only [Inh.step] at h
    cases hc : Inh.claimInheritancePlan s plan_id email code now with
    | error e => simp [hc, Except.map] at h
    | ok r =>
      simp only [hc, Except.map] at h
      cases h
      exact plansInv_claim s plan_id email code now r hinv hg hc
  | submitKyc user now =>
    simp only [Inh.step] at h
    exact plansInv_submitKyc s user now s' hinv h
  | approveKyc admin user now =>
    simp only [Inh.step] at h
    cases hc : Inh.approveKyc s admin user now with
    | error e => simp [hc, Except.map] at h
    | ok r =>
      simp only [hc, Except.map] at h
      cases h
      exact plansInv_approveKyc s admin user now r hinv hc
  | rejectKyc admin user now =>
    simp only [Inh.step] at h
    cases hc : Inh.rejectKyc s admin user now with
    | error e => simp [hc, Except.map] at h
    | ok r =>
      simp only [hc, Except.map] at h
      cases h
      exact plansInv_rejectKyc s admin user now r hinv hc
  | trigger admin plan_id now =>
    simp only [Inh.step] at h
    cases hc : Inh.triggerInheritance s admin plan_id now with
    | error e => simp [hc, Except.map] at h
    | ok r =>
      simp only [hc, Except.map] at h
      cases h
      exact plansInv_trigger s admin plan_id now r hinv hc
  | «recall» admin plan_id amount =>
    simp only [Inh.step] at h
    cases hc : Inh.recallLoan s admin plan_id amount with
    | error e => simp [hc, Except.map] at h
    | ok r =>
      simp only [hc, Except.map] at h
      cases h
      exact plansInv_recall s admin plan_id amount r hinv hc
  | liquidation admin plan_id =>
    simp only [Inh.step] at h
    cases hc : Inh.liquidationFallback s admin plan_id with
    | error e => simp [hc, Except.map] at h
    | ok r =>
      simp only [hc, Except.map] at h
      cases h
      exact plansInv_liquidation s admin plan_id r hinv hc

/-- The state after recalling 200 from plan 1 of `c2State`. -/
def c2RecallState : Inh.InhState :=
  match Inh.step c2State (.recall 1 1 200) with
  | .ok s1 => s1
  | .error _ => c2State

/-- Witness for the amended C2 theorem: a concrete recall of 200 on the
triggered plan of `c2State` succeeds and the result satisfies the
invariant. -/
theorem claim2_invariant_amended_witness : PlansInv c2RecallState :=
  claim2_invariant_amended c2State (.recall 1 1 200) c2RecallState
    (by
      intro pid plan hq
      simp only [c2State] at hq
      split at hq
      · cases hq
        decide
      · cases hq)
    trivial rfl
